import Mathlib

/-!
# EulerGradientVectorFlow (FAST): shallow embedding and verified properties

Sources: `source/FAST/Algorithms/GradientVectorFlow/EulerGradientVectorFlow.cpp`
and, for the suppression of vessel candidates further down,
`source/FAST/Algorithms/UltrasoundVesselDetection/UltrasoundVesselDetection.cpp`.

Conventions of the embedding

* `uint` (C++ `unsigned int`, 32 bits) is `Fin 4294967296`; the loop counter
  `int i` is an `Int` kept in the 32-bit two-complement range by `wrapInt32`.
* A `float` is a `CFloat`: a finite value carried as the exact rational it
  denotes, or one of the IEEE specials. Comparing a `float` with a `double`
  literal promotes the float exactly, so the comparison is the comparison of
  the two rationals.
* A member function that may throw returns an `Outcome` paired with the
  state it leaves behind.
* The OpenCL side is an explicit `Runtime`: the programs built, the memory
  objects allocated, the commands put on the queue and the output image.
-/

namespace fast

/-! ## Machine numbers -/

/-- Values of the C++ type `unsigned int` (`uint` in FAST). -/
abbrev uint := Fin 4294967296

/-- Conversion of an `int` to `unsigned int`, as the usual arithmetic
conversions do in `i < iterations`. -/
def toUInt32 (i : Int) : Nat := (i % 4294967296).toNat

/-- Result of an `int` operation, reduced to the 32-bit two-complement range. -/
def wrapInt32 (x : Int) : Int := (x + 2147483648) % 4294967296 - 2147483648

/-- Values of the C++ type `float`: a finite value is carried as the exact
rational number it denotes. -/
inductive CFloat where
  | finite (value : ℚ)
  | posInf
  | negInf
  | nan
deriving DecidableEq

/-- The comparison `x > d` of a `float` with a finite `double` value `d`. -/
def CFloat.gtDouble (x : CFloat) (d : ℚ) : Bool :=
  match x with
  | .finite q => decide (d < q)
  | .posInf => true
  | .negInf => false
  | .nan => false

/-- The comparison `x < d` of a `float` with a finite `double` or `int`
value `d`. -/
def CFloat.ltDouble (x : CFloat) (d : ℚ) : Bool :=
  match x with
  | .finite q => decide (q < d)
  | .posInf => false
  | .negInf => true
  | .nan => false

/-- The `double` literal `0.2`: the binary64 number nearest to one fifth,
`7205759403792794 * 2^-55`. -/
def double_0_2 : ℚ := 3602879701896397 / 2 ^ 54

/-- The `float` literal `0.05f`: the binary32 number nearest to one twentieth. -/
def float_0_05 : ℚ := 13421773 / 2 ^ 28

/-- The single-precision value of `0.2`: the binary32 number nearest to one
fifth. -/
def float_0_2 : ℚ := 13421773 / 2 ^ 26

/-- The single-precision value of `0.0001`: the binary32 number nearest to
one ten-thousandth. -/
def float_0_0001 : ℚ := 13743895 / 2 ^ 37

/-- The single-precision value of `0.25`, which is exact. -/
def float_0_25 : ℚ := 1 / 4

/-! ## Outcomes -/

/-- How a call ended: it returned, or it threw a `fast::Exception`. -/
inductive Outcome where
  | returned
  | threw (what : String)
deriving DecidableEq

/-- The call threw. -/
def Outcome.failed : Outcome → Bool
  | .returned => false
  | .threw _ => true

/-! ## The process object -/

/-- Data members of `EulerGradientVectorFlow` that the source file uses. -/
structure EulerGradientVectorFlow where
  mIterations : uint
  mMu : CFloat
  mUse16bitFormat : Bool
deriving DecidableEq

namespace EulerGradientVectorFlow

/-- The constructor `EulerGradientVectorFlow::EulerGradientVectorFlow()`
(reached through `New()`): lines 7-13. -/
def New : EulerGradientVectorFlow :=
  { mIterations := 0, mMu := .finite float_0_05, mUse16bitFormat := true }

/-- Source `setIterations`, lines 15-19. -/
def setIterations (self : EulerGradientVectorFlow) (iterations : uint) :
    Outcome × EulerGradientVectorFlow :=
  if iterations == 0 then
    (.threw "Number of iterations can't be zero in EulerGradientVectorFlow.", self)
  else
    (.returned, { self with mIterations := iterations })

/-- Source `setMuConstant`, lines 21-25: `mu > 0.2 || mu < 0`, the literal
`0.2` being a `double`. -/
def setMuConstant (self : EulerGradientVectorFlow) (mu : CFloat) :
    Outcome × EulerGradientVectorFlow :=
  if mu.gtDouble double_0_2 || mu.ltDouble 0 then
    (.threw "The constant mu must be larger than 0 and smaller than 0.2 in EulerGradientVectorFlow.", self)
  else
    (.returned, { self with mMu := mu })

/-- Source `getMuConstant`, lines 27-29. -/
def getMuConstant (self : EulerGradientVectorFlow) : CFloat := self.mMu

/-- Source `set16bitStorageFormat`, lines 31-33. -/
def set16bitStorageFormat (self : EulerGradientVectorFlow) : EulerGradientVectorFlow :=
  { self with mUse16bitFormat := true }

/-- Source `set32bitStorageFormat`, lines 35-37. -/
def set32bitStorageFormat (self : EulerGradientVectorFlow) : EulerGradientVectorFlow :=
  { self with mUse16bitFormat := false }

end EulerGradientVectorFlow

/-! ## OpenCL objects -/

/-- Channel orders of `cl::ImageFormat`. -/
inductive ChannelOrder where
  | CL_R
  | CL_RG
  | CL_RGBA
deriving DecidableEq

/-- Channel data types of `cl::ImageFormat`. -/
inductive ChannelType where
  | CL_SNORM_INT16
  | CL_UNORM_INT16
  | CL_SIGNED_INT16
  | CL_UNSIGNED_INT8
  | CL_FLOAT
deriving DecidableEq

/-- Image object types queried in `isImageFormatSupported`. -/
inductive MemObjectType where
  | CL_MEM_OBJECT_IMAGE2D
  | CL_MEM_OBJECT_IMAGE3D
deriving DecidableEq

/-- A `cl::ImageFormat`. -/
structure ImageFormat where
  image_channel_order : ChannelOrder
  image_channel_data_type : ChannelType
deriving DecidableEq

/-- Number of channels of a channel order. -/
def ChannelOrder.channels : ChannelOrder → Nat
  | .CL_R => 1
  | .CL_RG => 2
  | .CL_RGBA => 4

/-- The two queries of `OpenCLDevice` that the source makes. -/
structure OpenCLDevice where
  isImageFormatSupported : ChannelOrder → ChannelType → MemObjectType → Bool
  isWritingTo3DTexturesSupported : Bool

/-- What the source reads of a FAST `Image`. The class is declared outside
this file: `clFormat` is the format of the OpenCL image that
`getOpenCLImageAccess` hands out, taken as given. -/
structure Image where
  dimensions : Nat
  nrOfComponents : Nat
  width : uint
  height : uint
  depth : uint
  clFormat : ImageFormat
deriving DecidableEq

/-- Memory objects named in the three drivers. -/
inductive MemObject where
  | inputVectorField
  | vectorField
  | vectorField2
  | vectorFieldBuffer
  | vectorFieldBuffer1
  | finalVectorFieldBuffer
  | outputCLImage
deriving DecidableEq

/-- Kernels of `EulerGradientVectorFlow.cl` that the drivers launch. -/
inductive Kernel where
  | GVF2DIteration
  | GVF2DCopy
  | GVF3DIteration
  | GVF3DCopy
  | GVF3DInit
  | GVF3DFinish
deriving DecidableEq

/-- An argument bound with `setArg`. -/
inductive KernelArg where
  | mem (m : MemObject)
  | scalar (x : CFloat)
deriving DecidableEq

/-- Access flags of an allocation. -/
inductive MemFlags where
  | CL_MEM_READ_WRITE
  | CL_MEM_WRITE_ONLY
deriving DecidableEq

/-- A memory object created by a driver. -/
inductive Allocation where
  | image2D (obj : MemObject) (flags : MemFlags) (format : ImageFormat) (width height : Nat)
  | image3D (obj : MemObject) (flags : MemFlags) (format : ImageFormat) (width height depth : Nat)
  | buffer (obj : MemObject) (flags : MemFlags) (size : Nat)
deriving DecidableEq

/-- A command put on the command queue. -/
inductive Command where
  | enqueueNDRangeKernel (kernel : Kernel) (args : List KernelArg) (global : List Nat)
  | enqueueCopyImage (src dst : MemObject) (region : List Nat)
  | enqueueCopyBufferToImage (src dst : MemObject) (region : List Nat)
deriving DecidableEq

/-- The explicit resource and output state around a call of `execute`. -/
structure Runtime where
  programs : List String
  allocations : List Allocation
  queue : List Command
  output : Option Image
deriving DecidableEq

/-! ## Storage format negotiation -/

/-- Source `execute2DGVF`, lines 51-75: the storage format of the planar
driver. -/
def storageFormat2D (device : OpenCLDevice) (mUse16bitFormat : Bool) : ImageFormat :=
  if mUse16bitFormat then
    if device.isImageFormatSupported .CL_RG .CL_SNORM_INT16 .CL_MEM_OBJECT_IMAGE2D then
      ⟨.CL_RG, .CL_SNORM_INT16⟩
    else if device.isImageFormatSupported .CL_RGBA .CL_SNORM_INT16 .CL_MEM_OBJECT_IMAGE2D then
      ⟨.CL_RGBA, .CL_SNORM_INT16⟩
    else if device.isImageFormatSupported .CL_RG .CL_FLOAT .CL_MEM_OBJECT_IMAGE2D then
      ⟨.CL_RG, .CL_FLOAT⟩
    else
      ⟨.CL_RGBA, .CL_FLOAT⟩
  else
    if device.isImageFormatSupported .CL_RG .CL_FLOAT .CL_MEM_OBJECT_IMAGE2D then
      ⟨.CL_RG, .CL_FLOAT⟩
    else
      ⟨.CL_RGBA, .CL_FLOAT⟩

/-- Source `execute3DGVF`, lines 163-176, and `execute3DGVFNo3DWrite`, lines
264-278 (the same cascade): the storage format of the volumetric drivers. -/
def storageFormat3D (device : OpenCLDevice) (mUse16bitFormat : Bool) : ImageFormat :=
  if mUse16bitFormat then
    if device.isImageFormatSupported .CL_RGBA .CL_SNORM_INT16 .CL_MEM_OBJECT_IMAGE3D then
      ⟨.CL_RGBA, .CL_SNORM_INT16⟩
    else
      ⟨.CL_RGBA, .CL_FLOAT⟩
  else
    ⟨.CL_RGBA, .CL_FLOAT⟩

/-- The query `isImageFormatSupported` on a format record. -/
def OpenCLDevice.supports (device : OpenCLDevice) (type : MemObjectType) (f : ImageFormat) : Bool :=
  device.isImageFormatSupported f.image_channel_order f.image_channel_data_type type

/-- The negotiation chains as the specification words them (section 4.2),
by dimensionality and precision preference, in priority order. -/
def negotiationChain (type : MemObjectType) (prefer16bit : Bool) : List ImageFormat :=
  match type, prefer16bit with
  | .CL_MEM_OBJECT_IMAGE2D, true =>
      [⟨.CL_RG, .CL_SNORM_INT16⟩, ⟨.CL_RGBA, .CL_SNORM_INT16⟩, ⟨.CL_RG, .CL_FLOAT⟩, ⟨.CL_RGBA, .CL_FLOAT⟩]
  | .CL_MEM_OBJECT_IMAGE2D, false =>
      [⟨.CL_RG, .CL_FLOAT⟩, ⟨.CL_RGBA, .CL_FLOAT⟩]
  | .CL_MEM_OBJECT_IMAGE3D, true =>
      [⟨.CL_RGBA, .CL_SNORM_INT16⟩, ⟨.CL_RGBA, .CL_FLOAT⟩]
  | .CL_MEM_OBJECT_IMAGE3D, false =>
      [⟨.CL_RGBA, .CL_FLOAT⟩]

/-- The storage format the drivers for `type` compute. -/
def storageFormat (type : MemObjectType) (device : OpenCLDevice) (mUse16bitFormat : Bool) : ImageFormat :=
  match type with
  | .CL_MEM_OBJECT_IMAGE2D => storageFormat2D device mUse16bitFormat
  | .CL_MEM_OBJECT_IMAGE3D => storageFormat3D device mUse16bitFormat

/-! ## The iteration loop -/

/-- The launch of the iteration kernel at counter value `i`: arguments 0 and
3 are bound before the loop, arguments 1 (read) and 2 (write) by the parity
test `i % 2 == 0` (C++ remainder, truncating). -/
def iterationLaunch (kernel : Kernel) (input buf0 buf1 : MemObject) (mu : CFloat)
    (global : List Nat) (i : Int) : Command :=
  if Int.tmod i 2 == 0 then
    .enqueueNDRangeKernel kernel [.mem input, .mem buf0, .mem buf1, .scalar mu] global
  else
    .enqueueNDRangeKernel kernel [.mem input, .mem buf1, .mem buf0, .scalar mu] global

/-- The loop `for(int i = 0; i < iterations; ++i)` of the three drivers, from
counter value `i` on: the commands it enqueues. The test converts `i` to
`unsigned int`; the increment is taken in 32-bit two-complement arithmetic,
which only matters for counts above `2^31 - 1`. -/
def iterationLoop (kernel : Kernel) (input buf0 buf1 : MemObject) (mu : CFloat)
    (global : List Nat) (iterations : uint) (i : Int) : List Command :=
  if toUInt32 i < iterations.val then
    iterationLaunch kernel input buf0 buf1 mu global i ::
      iterationLoop kernel input buf0 buf1 mu global iterations (wrapInt32 (i + 1))
  else
    []
termination_by iterations.val - toUInt32 i
decreasing_by
  unfold toUInt32 wrapInt32
  unfold toUInt32 at *
  omega

/-! ## The three drivers -/

namespace EulerGradientVectorFlow

/-- Source `execute2DGVF`, lines 81-83: the double buffer. -/
def execute2DGVF.allocations (self : EulerGradientVectorFlow) (input : Image)
    (device : OpenCLDevice) : List Allocation :=
  let storageFormat := storageFormat2D device self.mUse16bitFormat
  [.image2D .vectorField .CL_MEM_READ_WRITE storageFormat input.width.val input.height.val,
   .image2D .vectorField2 .CL_MEM_READ_WRITE storageFormat input.width.val input.height.val]

/-- Source `execute2DGVF`, lines 85-105: copying the input into `vectorField`. -/
def execute2DGVF.seed (self : EulerGradientVectorFlow) (input : Image)
    (device : OpenCLDevice) : Command :=
  let storageFormat := storageFormat2D device self.mUse16bitFormat
  if storageFormat.image_channel_data_type == .CL_SNORM_INT16 then
    .enqueueNDRangeKernel .GVF2DCopy [.mem .inputVectorField, .mem .vectorField]
      [input.width.val, input.height.val]
  else
    .enqueueCopyImage .inputVectorField .vectorField [input.width.val, input.height.val, 1]

/-- Source `execute2DGVF`, lines 107-124: the iteration loop. -/
def execute2DGVF.steps (self : EulerGradientVectorFlow) (input : Image)
    (iterations : uint) : List Command :=
  iterationLoop .GVF2DIteration .inputVectorField .vectorField .vectorField2 self.mMu
    [input.width.val, input.height.val] iterations 0

/-- Source `execute2DGVF`, lines 127-149: copying the result to the output. -/
def execute2DGVF.materialize (self : EulerGradientVectorFlow) (input : Image)
    (device : OpenCLDevice) : Command :=
  let storageFormat := storageFormat2D device self.mUse16bitFormat
  if storageFormat.image_channel_data_type == .CL_SNORM_INT16 then
    .enqueueNDRangeKernel .GVF2DCopy [.mem .vectorField, .mem .outputCLImage]
      [input.width.val, input.height.val]
  else
    .enqueueCopyImage .vectorField .outputCLImage [input.width.val, input.height.val, 1]

/-- Source `execute2DGVF`, lines 39-150. The function has no `throw`. -/
def execute2DGVF (self : EulerGradientVectorFlow) (input : Image) (device : OpenCLDevice)
    (iterations : uint) (rt : Runtime) : Outcome × Runtime :=
  (.returned,
    { rt with
      programs := rt.programs ++ [""]
      allocations := rt.allocations ++ execute2DGVF.allocations self input device
      queue := rt.queue ++ execute2DGVF.seed self input device ::
        (execute2DGVF.steps self input iterations ++ [execute2DGVF.materialize self input device]) })

/-- Source `execute3DGVF`, lines 182-184: the double buffer. -/
def execute3DGVF.allocations (self : EulerGradientVectorFlow) (input : Image)
    (device : OpenCLDevice) : List Allocation :=
  let storageFormat := storageFormat3D device self.mUse16bitFormat
  [.image3D .vectorField .CL_MEM_READ_WRITE storageFormat
     input.width.val input.height.val input.depth.val,
   .image3D .vectorField2 .CL_MEM_READ_WRITE storageFormat
     input.width.val input.height.val input.depth.val]

/-- Source `execute3DGVF`, lines 186-206: copying the input into `vectorField`. -/
def execute3DGVF.seed (self : EulerGradientVectorFlow) (input : Image)
    (device : OpenCLDevice) : Command :=
  let storageFormat := storageFormat3D device self.mUse16bitFormat
  if storageFormat.image_channel_data_type == .CL_SNORM_INT16 then
    .enqueueNDRangeKernel .GVF3DCopy [.mem .inputVectorField, .mem .vectorField]
      [input.width.val, input.height.val, input.depth.val]
  else
    .enqueueCopyImage .inputVectorField .vectorField
      [input.width.val, input.height.val, input.depth.val]

/-- Source `execute3DGVF`, lines 208-225: the iteration loop. -/
def execute3DGVF.steps (self : EulerGradientVectorFlow) (input : Image)
    (iterations : uint) : List Command :=
  iterationLoop .GVF3DIteration .inputVectorField .vectorField .vectorField2 self.mMu
    [input.width.val, input.height.val, input.depth.val] iterations 0

/-- Source `execute3DGVF`, lines 227-248: copying the result to the output. -/
def execute3DGVF.materialize (self : EulerGradientVectorFlow) (input : Image)
    (device : OpenCLDevice) : Command :=
  let storageFormat := storageFormat3D device self.mUse16bitFormat
  if storageFormat.image_channel_data_type == .CL_SNORM_INT16 then
    .enqueueNDRangeKernel .GVF3DCopy [.mem .vectorField, .mem .outputCLImage]
      [input.width.val, input.height.val, input.depth.val]
  else
    .enqueueCopyImage .vectorField .outputCLImage
      [input.width.val, input.height.val, input.depth.val]

/-- Source `execute3DGVF`, lines 152-249. The function has no `throw`. -/
def execute3DGVF (self : EulerGradientVectorFlow) (input : Image) (device : OpenCLDevice)
    (iterations : uint) (rt : Runtime) : Outcome × Runtime :=
  (.returned,
    { rt with
      programs := rt.programs ++ [""]
      allocations := rt.allocations ++ execute3DGVF.allocations self input device
      queue := rt.queue ++ execute3DGVF.seed self input device ::
        (execute3DGVF.steps self input iterations ++ [execute3DGVF.materialize self input device]) })

/-- Source `execute3DGVFNo3DWrite`, line 259: `width*height*depth` in
`unsigned int` arithmetic. -/
def execute3DGVFNo3DWrite.totalSize (input : Image) : uint :=
  input.width * input.height * input.depth

/-- Source `execute3DGVFNo3DWrite`, lines 262-265: `sizeof(short)` when the
16-bit preference is set, `sizeof(float)` otherwise. -/
def execute3DGVFNo3DWrite.vectorFieldSize (self : EulerGradientVectorFlow) : Nat :=
  if self.mUse16bitFormat then 2 else 4

/-- Source `execute3DGVFNo3DWrite`, lines 263-266: the build options. -/
def execute3DGVFNo3DWrite.buildOptions (self : EulerGradientVectorFlow) : String :=
  if self.mUse16bitFormat then "-DVECTORS_16BIT" else ""

/-- Source `execute3DGVFNo3DWrite`, lines 289-298: the two auxiliary
buffers, of `3*vectorFieldSize*totalSize` bytes (an `unsigned int` product). -/
def execute3DGVFNo3DWrite.allocations (self : EulerGradientVectorFlow) (input : Image) :
    List Allocation :=
  let size := (3 * execute3DGVFNo3DWrite.vectorFieldSize self *
    (execute3DGVFNo3DWrite.totalSize input).val) % 4294967296
  [.buffer .vectorFieldBuffer .CL_MEM_READ_WRITE size,
   .buffer .vectorFieldBuffer1 .CL_MEM_READ_WRITE size]

/-- Source `execute3DGVFNo3DWrite`, lines 300-307: the init kernel. -/
def execute3DGVFNo3DWrite.seed (input : Image) : Command :=
  .enqueueNDRangeKernel .GVF3DInit [.mem .inputVectorField, .mem .vectorFieldBuffer]
    [input.width.val, input.height.val, input.depth.val]

/-- Source `execute3DGVFNo3DWrite`, lines 309-327: the iteration loop. -/
def execute3DGVFNo3DWrite.steps (self : EulerGradientVectorFlow) (input : Image)
    (iterations : uint) : List Command :=
  iterationLoop .GVF3DIteration .inputVectorField .vectorFieldBuffer .vectorFieldBuffer1 self.mMu
    [input.width.val, input.height.val, input.depth.val] iterations 0

/-- Source `execute3DGVFNo3DWrite`, lines 329-333: the buffer the finish
kernel writes, of `4*sizeof(float)*totalSize` bytes (a `size_t` product). -/
def execute3DGVFNo3DWrite.finalAllocation (input : Image) : Allocation :=
  .buffer .finalVectorFieldBuffer .CL_MEM_WRITE_ONLY
    (4 * 4 * (execute3DGVFNo3DWrite.totalSize input).val)

/-- Source `execute3DGVFNo3DWrite`, lines 335-355: the finish kernel and the
copy of its result to the output image. -/
def execute3DGVFNo3DWrite.materialize (input : Image) : List Command :=
  [.enqueueNDRangeKernel .GVF3DFinish [.mem .vectorFieldBuffer, .mem .finalVectorFieldBuffer]
     [input.width.val, input.height.val, input.depth.val],
   .enqueueCopyBufferToImage .finalVectorFieldBuffer .outputCLImage
     [input.width.val, input.height.val, input.depth.val]]

/-- Source `execute3DGVFNo3DWrite`, lines 251-357. The function has no `throw`. -/
def execute3DGVFNo3DWrite (self : EulerGradientVectorFlow) (input : Image)
    (iterations : uint) (rt : Runtime) : Outcome × Runtime :=
  (.returned,
    { rt with
      programs := rt.programs ++ [execute3DGVFNo3DWrite.buildOptions self]
      allocations := rt.allocations ++
        (execute3DGVFNo3DWrite.allocations self input ++
          [execute3DGVFNo3DWrite.finalAllocation input])
      queue := rt.queue ++ execute3DGVFNo3DWrite.seed input ::
        (execute3DGVFNo3DWrite.steps self input iterations ++
          execute3DGVFNo3DWrite.materialize input) })

/-! ## execute -/

/-- Source `execute`, lines 363-364: the test that guards the `throw`. -/
def execute.invalid (input : Image) : Bool :=
  (input.dimensions == 2 && input.nrOfComponents != 2) ||
    (input.dimensions == 3 && input.nrOfComponents != 3)

/-- Source `execute`, lines 368-371: the iteration count of the run. -/
def execute.iterations (self : EulerGradientVectorFlow) (input : Image) : uint :=
  if self.mIterations == 0 then
    max input.width (max input.height input.depth)
  else
    self.mIterations

/-- Source `execute`, lines 359-387. `createFromImage` gives the output the
shape and type of the input. -/
def execute (self : EulerGradientVectorFlow) (input : Image) (device : OpenCLDevice)
    (rt : Runtime) : Outcome × Runtime :=
  if execute.invalid input then
    (.threw "Input to EulerGradientVectorFlow must be a vector field. Nr of components > 1.", rt)
  else
    let iterations := execute.iterations self input
    let rt := { rt with output := some input }
    if input.dimensions == 2 then
      execute2DGVF self input device iterations rt
    else
      if device.isWritingTo3DTexturesSupported then
        execute3DGVF self input device iterations rt
      else
        execute3DGVFNo3DWrite self input iterations rt

end EulerGradientVectorFlow

/-! ## Observers on commands -/

/-- The commands of a queue that launch an iteration kernel. -/
def Command.isIteration : Command → Bool
  | .enqueueNDRangeKernel .GVF2DIteration _ _ => true
  | .enqueueNDRangeKernel .GVF3DIteration _ _ => true
  | _ => false

/-- The memory object a command reads the evolving field from: argument 1 of
an iteration kernel, argument 0 of the other kernels, the source of a copy. -/
def Command.source : Command → Option MemObject
  | .enqueueNDRangeKernel .GVF2DIteration [_, .mem r, _, _] _ => some r
  | .enqueueNDRangeKernel .GVF3DIteration [_, .mem r, _, _] _ => some r
  | .enqueueNDRangeKernel .GVF2DCopy [.mem s, _] _ => some s
  | .enqueueNDRangeKernel .GVF3DCopy [.mem s, _] _ => some s
  | .enqueueNDRangeKernel .GVF3DInit [.mem s, _] _ => some s
  | .enqueueNDRangeKernel .GVF3DFinish [.mem s, _] _ => some s
  | .enqueueNDRangeKernel _ _ _ => none
  | .enqueueCopyImage s _ _ => some s
  | .enqueueCopyBufferToImage s _ _ => some s

/-- The memory object a command writes: argument 2 of an iteration kernel,
argument 1 of the other kernels, the destination of a copy. -/
def Command.target : Command → Option MemObject
  | .enqueueNDRangeKernel .GVF2DIteration [_, _, .mem w, _] _ => some w
  | .enqueueNDRangeKernel .GVF3DIteration [_, _, .mem w, _] _ => some w
  | .enqueueNDRangeKernel .GVF2DCopy [_, .mem d] _ => some d
  | .enqueueNDRangeKernel .GVF3DCopy [_, .mem d] _ => some d
  | .enqueueNDRangeKernel .GVF3DInit [_, .mem d] _ => some d
  | .enqueueNDRangeKernel .GVF3DFinish [_, .mem d] _ => some d
  | .enqueueNDRangeKernel _ _ _ => none
  | .enqueueCopyImage _ d _ => some d
  | .enqueueCopyBufferToImage _ d _ => some d

/-- A command is a raw copy (`enqueueCopyImage`), not a kernel pass. -/
def Command.isRawCopy : Command → Bool
  | .enqueueCopyImage _ _ _ => true
  | _ => false

/-- A command is a launch of a conversion kernel (`GVF2DCopy`, `GVF3DCopy`). -/
def Command.isConversionKernel : Command → Bool
  | .enqueueNDRangeKernel .GVF2DCopy _ _ => true
  | .enqueueNDRangeKernel .GVF3DCopy _ _ => true
  | _ => false

/-- The buffer the last iteration step of a loop wrote, if a step ran. -/
def lastWritten (steps : List Command) : Option MemObject :=
  match steps.getLast? with
  | some c => c.target
  | none => none

/-- The empty state before a call. -/
def Runtime.empty : Runtime :=
  { programs := [], allocations := [], queue := [], output := none }

/-- Step `k` of a loop over the buffers `buf0` (seeded) and `buf1`, as the
double-buffer scheme describes it: even steps read `buf0` and write `buf1`,
odd steps the reverse. -/
def stepCommand (kernel : Kernel) (input buf0 buf1 : MemObject) (mu : CFloat)
    (global : List Nat) (k : Nat) : Command :=
  if k % 2 = 0 then
    .enqueueNDRangeKernel kernel [.mem input, .mem buf0, .mem buf1, .scalar mu] global
  else
    .enqueueNDRangeKernel kernel [.mem input, .mem buf1, .mem buf0, .scalar mu] global

/-- The commands a call added to the queue of the state it started from. -/
def Runtime.launchedSince (after before : Runtime) : List Command :=
  after.queue.drop before.queue.length

/-- The state after a sequence of `setIterations` calls, failed ones included. -/
def setIterationsCalls (self : EulerGradientVectorFlow) : List uint → EulerGradientVectorFlow
  | [] => self
  | n :: rest => setIterationsCalls (self.setIterations n).2 rest

/-- The argument of the last call in a sequence that `setIterations` can
accept (a nonzero one), if there is one. -/
def lastAccepted (calls : List uint) : Option uint :=
  (calls.filter (fun n => n != 0)).getLast?

/-- The resolved iteration count as the specification words it (section
4.5): the value last set, or the largest extent when never set. -/
def resolvedCount (calls : List uint) (input : Image) : uint :=
  match lastAccepted calls with
  | some n => n
  | none => max input.width (max input.height input.depth)

/-- The number of iteration steps among the commands a call launched. -/
def iterationSteps (after before : Runtime) : Nat :=
  ((after.launchedSince before).filter Command.isIteration).length

/-! ## Concrete inputs -/

/-- A 64 by 48 planar field of 2-component float vectors. -/
def field64x48 : Image :=
  { dimensions := 2, nrOfComponents := 2, width := 64, height := 48, depth := 1,
    clFormat := ⟨.CL_RG, .CL_FLOAT⟩ }

/-- An 8 by 8 by 8 volume of 3-component float vectors. -/
def volume8 : Image :=
  { dimensions := 3, nrOfComponents := 3, width := 8, height := 8, depth := 8,
    clFormat := ⟨.CL_RGBA, .CL_FLOAT⟩ }

/-- A planar image with 3 components per cell: not a 2D vector field. -/
def planarThreeComponents : Image :=
  { dimensions := 2, nrOfComponents := 3, width := 64, height := 48, depth := 1,
    clFormat := ⟨.CL_RGBA, .CL_FLOAT⟩ }

/-- A 64 by 48 planar image of 2-component 8-bit unsigned vectors. -/
def field64x48UInt8 : Image :=
  { dimensions := 2, nrOfComponents := 2, width := 64, height := 48, depth := 1,
    clFormat := ⟨.CL_RG, .CL_UNSIGNED_INT8⟩ }

/-- A device that supports every image format and writes to 3D textures. -/
def deviceAll : OpenCLDevice :=
  { isImageFormatSupported := fun _ _ _ => true, isWritingTo3DTexturesSupported := true }

/-- A device that reports no image format as supported and cannot write to
3D textures. -/
def deviceNone : OpenCLDevice :=
  { isImageFormatSupported := fun _ _ _ => false, isWritingTo3DTexturesSupported := false }

/-- A device whose only supported image formats are the 4-channel float ones. -/
def deviceRGBAFloat : OpenCLDevice :=
  { isImageFormatSupported := fun o t _ => o == .CL_RGBA && t == .CL_FLOAT,
    isWritingTo3DTexturesSupported := true }

/-- A state in which earlier calls left a program, an allocation and a
command behind. -/
def runtimeInUse : Runtime :=
  { programs := ["-DVECTORS_16BIT"],
    allocations := [.buffer .vectorFieldBuffer .CL_MEM_READ_WRITE 6],
    queue := [.enqueueCopyImage .inputVectorField .vectorField [1, 1, 1]],
    output := none }


/-! ## Observers on allocations -/

/-- The image format of an allocation; a plain buffer has none. -/
def Allocation.format? : Allocation → Option ImageFormat
  | .image2D _ _ f _ _ => some f
  | .image3D _ _ f _ _ _ => some f
  | .buffer _ _ _ => none

/-- The size of an allocation: the extents of an image, the byte count of a
buffer. -/
def Allocation.shape : Allocation → List Nat
  | .image2D _ _ _ w h => [w, h]
  | .image3D _ _ _ w h d => [w, h, d]
  | .buffer _ _ size => [size]

/-- The memory object an allocation creates. -/
def Allocation.obj : Allocation → MemObject
  | .image2D o _ _ _ _ => o
  | .image3D o _ _ _ _ _ => o
  | .buffer o _ _ => o

/-- Bytes per element of a channel data type. -/
def ChannelType.bytes : ChannelType → Nat
  | .CL_SNORM_INT16 => 2
  | .CL_UNORM_INT16 => 2
  | .CL_SIGNED_INT16 => 2
  | .CL_UNSIGNED_INT8 => 1
  | .CL_FLOAT => 4

/-- A device that supports every image format but cannot write to 3D
textures. -/
def deviceNo3DWrite : OpenCLDevice :=
  { isImageFormatSupported := fun _ _ _ => true, isWritingTo3DTexturesSupported := false }

/-- The memory object bound as argument 0 of an iteration kernel: the
original input field. -/
def Command.fieldArg : Command → Option MemObject
  | .enqueueNDRangeKernel .GVF2DIteration (.mem a :: _) _ => some a
  | .enqueueNDRangeKernel .GVF3DIteration (.mem a :: _) _ => some a
  | _ => none

/-! ## Contents of the memory objects -/

/-- The contents of every memory object, as values of an arbitrary type. -/
abbrev Memory (β : Type) := MemObject → β

/-- The effect of a command on the contents. An iteration kernel writes
`f read input mu` into its write buffer, `f` being an arbitrary function of
the read buffer, the input field and `mu`; every other command writes
`g c source` into its target, `g` being an arbitrary function of the command
and of the contents of its source. -/
def Command.run {β : Type} (f : β → β → CFloat → β) (g : Command → β → β) :
    Command → Memory β → Memory β
  | .enqueueNDRangeKernel .GVF2DIteration [.mem a, .mem r, .mem w, .scalar mu] _, m =>
      Function.update m w (f (m r) (m a) mu)
  | .enqueueNDRangeKernel .GVF3DIteration [.mem a, .mem r, .mem w, .scalar mu] _, m =>
      Function.update m w (f (m r) (m a) mu)
  | c, m =>
      match c.source, c.target with
      | some s, some d => Function.update m d (g c (m s))
      | _, _ => m

/-- The contents after the commands of a queue ran in order. -/
def runQueue {β : Type} (f : β → β → CFloat → β) (g : Command → β → β)
    (queue : List Command) (m : Memory β) : Memory β :=
  queue.foldl (fun acc c => c.run f g acc) m

/-- The contents of the output image after the commands a call launched ran
on the contents `m`. -/
def outputAfter {β : Type} (f : β → β → CFloat → β) (g : Command → β → β)
    (result : Outcome × Runtime) (before : Runtime) (m : Memory β) : β :=
  runQueue f g (result.2.launchedSince before) m .outputCLImage

/-! ## UltrasoundVesselDetection: the greedy suppression of candidates

Source: `source/FAST/Algorithms/UltrasoundVesselDetection/UltrasoundVesselDetection.cpp`,
lines 34-44 and 129-172. Scores, radii, positions and distances are `float`
values (`CFloat`), compared as the machine compares them: every comparison
with NaN is false. `VesselCrossSection`, Eigen and `std::priority_queue` are
declared outside the source file and enter through what the loop uses of
them: the norm of a difference of positions as the function `distance`, the
queue as the function `top`, of which only the contract of the library is
assumed.
-/

/-- The value is NaN. -/
def CFloat.isNaN : CFloat → Bool
  | .nan => true
  | _ => false

/-- The comparison `x < y` of two `float` values. -/
def CFloat.lt : CFloat → CFloat → Bool
  | .nan, _ => false
  | _, .nan => false
  | .finite a, .finite b => decide (a < b)
  | .finite _, .posInf => true
  | .finite _, .negInf => false
  | .posInf, _ => false
  | .negInf, .negInf => false
  | .negInf, _ => true

/-- The comparison `x <= y` of two `float` values. -/
def CFloat.le : CFloat → CFloat → Bool
  | .nan, _ => false
  | _, .nan => false
  | .finite a, .finite b => decide (a ≤ b)
  | .finite _, .posInf => true
  | .finite _, .negInf => false
  | .posInf, .posInf => true
  | .posInf, _ => false
  | .negInf, _ => true

/-- What the suppression loop reads of a `VesselCrossSection` through its
access object: `getImageCenterPosition()` and `getMajorRadius()`. -/
structure VesselCrossSection where
  imageCenterPosition : CFloat × CFloat
  majorRadius : CFloat
deriving DecidableEq

/-- Source `Candidate`, lines 34-37. -/
structure Candidate where
  score : CFloat
  crossSection : VesselCrossSection
deriving DecidableEq

/-- Source `CandidateComparison::operator()`, lines 39-44. -/
def CandidateComparison (lhs rhs : Candidate) : Bool :=
  lhs.score.lt rhs.score

/-- The contract of `std::priority_queue::top` for a function `top` on the
elements held, all of which satisfy `ordered` (the elements on which `comp` is
a strict weak ordering): on a non-empty queue it yields one of the elements,
and that element compares less than no element of the queue. -/
def PriorityQueue.Conforms {α : Type} (comp : α → α → Bool) (ordered : α → Bool)
    (top : List α → Option α) : Prop :=
  (∀ q, top q = none → q = []) ∧
  (∀ q t, (∀ x ∈ q, ordered x = true) → top q = some t →
    t ∈ q ∧ ∀ x ∈ q, comp t x = false)

/-- One function that meets the contract, for concrete runs: of the elements
that compare less than no other, the earliest pushed. -/
def PriorityQueue.top {α : Type} (comp : α → α → Bool) : List α → Option α
  | [] => none
  | a :: rest =>
    match PriorityQueue.top comp rest with
    | none => some a
    | some b => if comp a b then some b else some a

/-- Library model of `std::priority_queue::pop`: removes the element `top`
returns. -/
def PriorityQueue.pop {α : Type} [DecidableEq α] (top : List α → Option α) (q : List α) :
    List α :=
  match top q with
  | none => q
  | some a => q.erase a

/-- The double literal `0.5`, which is exact. -/
def double_0_5 : ℚ := 1 / 2

namespace UltrasoundVesselDetection

/-- The state of the loop at lines 153-172: the member `mCrossSections`, and a
record of every candidate popped so far with the decision taken on it (`true`
for kept), which the source does not store. -/
structure Suppression where
  mCrossSections : List VesselCrossSection
  decisions : List (Candidate × Bool)
deriving DecidableEq

/-- Source `execute`, lines 131-149, on the cells the two loops visit, in the
order they visit them, each given with its score `data[i*4]` and the cross
section lines 136-141 build for it: the candidates pushed, those with
`data[i*4] > 0.5`. -/
def execute.candidates (cells : List Candidate) : List Candidate :=
  cells.filter fun c => c.score.gtDouble double_0_5

/-- Source `execute`, lines 158-168: the flag `invalid` after the inner loop
over `mCrossSections`; `distance a b` is `(a - b).norm()`. -/
def execute.invalid (distance : CFloat × CFloat → CFloat × CFloat → CFloat)
    (mCrossSections : List VesselCrossSection) (next : Candidate) : Bool :=
  mCrossSections.any fun crossSection =>
    (distance next.crossSection.imageCenterPosition crossSection.imageCenterPosition).lt
      crossSection.majorRadius

/-- Source `execute`, lines 153-172: the loop `while(!candidates.empty())`,
with one unit of fuel per turn; `none` when the fuel runs out before the queue
is empty. -/
def execute.suppress (top : List Candidate → Option Candidate)
    (distance : CFloat × CFloat → CFloat × CFloat → CFloat) :
    Nat → List Candidate → Suppression → Option Suppression
  | 0, candidates, s => if candidates.isEmpty then some s else none
  | fuel + 1, candidates, s =>
    match top candidates with
    | none => some s
    | some next =>
      if execute.invalid distance s.mCrossSections next then
        execute.suppress top distance fuel (PriorityQueue.pop top candidates)
          { s with decisions := s.decisions ++ [(next, false)] }
      else
        execute.suppress top distance fuel (PriorityQueue.pop top candidates)
          { mCrossSections := s.mCrossSections ++ [next.crossSection],
            decisions := s.decisions ++ [(next, true)] }

/-- Source `execute`, lines 129-172: the candidates are pushed,
`mCrossSections` is cleared, and the loop runs with as much fuel as there are
candidates. -/
def execute.findBestEllipses (top : List Candidate → Option Candidate)
    (distance : CFloat × CFloat → CFloat × CFloat → CFloat) (cells : List Candidate) :
    Option Suppression :=
  execute.suppress top distance (execute.candidates cells).length (execute.candidates cells)
    { mCrossSections := [], decisions := [] }

/-- The candidates the loop kept, in the order it kept them. -/
def Suppression.kept (s : Suppression) : List Candidate :=
  (s.decisions.filter fun d => d.2).map fun d => d.1

/-- Source `getCrossSections`, lines 277-279. -/
def getCrossSections (s : Suppression) : List VesselCrossSection :=
  s.mCrossSections

end UltrasoundVesselDetection

/-- The scores on which `CandidateComparison` is a strict weak ordering:
those that are not NaN. -/
def Candidate.ordered (c : Candidate) : Bool := !c.score.isNaN

/-- A distance for concrete runs: on finite positions the sum of the
coordinate differences, which is the Euclidean distance for two positions on
one horizontal or vertical line; NaN when a coordinate is not finite. -/
def gridDistance (a b : CFloat × CFloat) : CFloat :=
  match a, b with
  | (.finite x1, .finite y1), (.finite x2, .finite y2) => .finite (|x1 - x2| + |y1 - y2|)
  | _, _ => .nan

/-- Three candidates on one horizontal line: `candidateA` has the highest
score and radius 5, `candidateB` lies 3 away from it, `candidateC` 10 away. -/
def candidateA : Candidate :=
  { score := .finite 9, crossSection := ⟨(.finite 0, .finite 0), .finite 5⟩ }

/-- The candidate 3 away from `candidateA`, with the second highest score. -/
def candidateB : Candidate :=
  { score := .finite 8, crossSection := ⟨(.finite 3, .finite 0), .finite 2⟩ }

/-- The candidate 10 away from `candidateA`, with the lowest score. -/
def candidateC : Candidate :=
  { score := .finite 7, crossSection := ⟨(.finite 10, .finite 0), .finite 1⟩ }

/-- A candidate at the origin whose major radius is NaN, with score 9. -/
def candidateNaNRadius : Candidate :=
  { score := .finite 9, crossSection := ⟨(.finite 0, .finite 0), .nan⟩ }

/-- A candidate at the origin with major radius 1 and score 8. -/
def candidateOrigin : Candidate :=
  { score := .finite 8, crossSection := ⟨(.finite 0, .finite 0), .finite 1⟩ }

/-- What holds of the loop state each time the loop test is reached, with
`candidates` the queue at that point and `pushed` the candidates pushed
before the loop. -/
def SuppressionInvariant (distance : CFloat × CFloat → CFloat × CFloat → CFloat)
    (pushed candidates : List Candidate) (s : UltrasoundVesselDetection.Suppression) :
    Prop :=
  s.mCrossSections = s.kept.map (fun c => c.crossSection) ∧
  s.mCrossSections.Pairwise
    (fun a b => (distance b.imageCenterPosition a.imageCenterPosition).lt a.majorRadius =
      false) ∧
  s.decisions.Pairwise (fun a b => b.1.score.le a.1.score = true) ∧
  (∀ x ∈ candidates, ∀ d ∈ s.decisions, x.score.le d.1.score = true) ∧
  (∀ l1 d l2, s.decisions = l1 ++ (d, false) :: l2 →
    ∃ k, (k, true) ∈ l1 ∧
      (distance d.crossSection.imageCenterPosition k.crossSection.imageCenterPosition).lt
        k.crossSection.majorRadius = true) ∧
  (s.decisions.map (fun d => d.1) ++ candidates).Perm pushed

/-! # Theorems -/

/-! ## The loop in closed form -/

theorem toUInt32_lt (i : Int) : toUInt32 i < 4294967296 := by
  unfold toUInt32
  omega

theorem toUInt32_wrapInt32_succ (i : Int) (h : toUInt32 i + 1 < 4294967296) :
    toUInt32 (wrapInt32 (i + 1)) = toUInt32 i + 1 := by
  unfold toUInt32 wrapInt32
  unfold toUInt32 at h
  omega

theorem tmod_two_eq_zero_iff (i : Int) : Int.tmod i 2 = 0 ↔ toUInt32 i % 2 = 0 := by
  rw [← Int.dvd_iff_tmod_eq_zero]
  unfold toUInt32
  omega

theorem iterationLaunch_eq_stepCommand (kernel : Kernel) (input buf0 buf1 : MemObject)
    (mu : CFloat) (global : List Nat) (i : Int) :
    iterationLaunch kernel input buf0 buf1 mu global i =
      stepCommand kernel input buf0 buf1 mu global (toUInt32 i) := by
  unfold iterationLaunch stepCommand
  by_cases h : Int.tmod i 2 = 0
  · have h2 := (tmod_two_eq_zero_iff i).mp h
    simp [h, h2]
  · have h2 : ¬ toUInt32 i % 2 = 0 := fun hc => h ((tmod_two_eq_zero_iff i).mpr hc)
    simp [h, h2]

theorem iterationLoop_from (kernel : Kernel) (input buf0 buf1 : MemObject) (mu : CFloat)
    (global : List Nat) (iterations : uint) :
    ∀ (m : Nat) (i : Int), iterations.val - toUInt32 i = m →
      iterationLoop kernel input buf0 buf1 mu global iterations i =
        (List.range' (toUInt32 i) m).map (stepCommand kernel input buf0 buf1 mu global) := by
  intro m
  induction m with
  | zero =>
    intro i hm
    rw [iterationLoop]
    have : ¬ toUInt32 i < iterations.val := by omega
    simp [this]
  | succ m ih =>
    intro i hm
    have hlt : toUInt32 i < iterations.val := by omega
    have hbound := iterations.isLt
    have hnext := toUInt32_wrapInt32_succ i (by omega)
    rw [iterationLoop]
    simp only [hlt, if_true]
    rw [ih (wrapInt32 (i + 1)) (by omega), hnext, iterationLaunch_eq_stepCommand]
    simp [List.range'_succ]

theorem iterationLoop_zero (kernel : Kernel) (input buf0 buf1 : MemObject) (mu : CFloat)
    (global : List Nat) (iterations : uint) :
    iterationLoop kernel input buf0 buf1 mu global iterations 0 =
      (List.range iterations.val).map (stepCommand kernel input buf0 buf1 mu global) := by
  have h := iterationLoop_from kernel input buf0 buf1 mu global iterations iterations.val 0
    (by simp [toUInt32])
  rw [h, List.range_eq_range']
  simp [toUInt32]

theorem iterationLoop_length (kernel : Kernel) (input buf0 buf1 : MemObject) (mu : CFloat)
    (global : List Nat) (iterations : uint) :
    (iterationLoop kernel input buf0 buf1 mu global iterations 0).length = iterations.val := by
  rw [iterationLoop_zero]
  simp

theorem stepCommand_target (kernel : Kernel) (input buf0 buf1 : MemObject) (mu : CFloat)
    (global : List Nat) (k : Nat)
    (hk : kernel = .GVF2DIteration ∨ kernel = .GVF3DIteration) :
    (stepCommand kernel input buf0 buf1 mu global k).target =
      some (if k % 2 = 0 then buf1 else buf0) := by
  unfold stepCommand
  rcases hk with rfl | rfl <;> split <;> rfl

theorem lastWritten_iterationLoop (kernel : Kernel) (input buf0 buf1 : MemObject)
    (mu : CFloat) (global : List Nat) (iterations : uint)
    (hk : kernel = .GVF2DIteration ∨ kernel = .GVF3DIteration) (hpos : iterations.val ≠ 0) :
    lastWritten (iterationLoop kernel input buf0 buf1 mu global iterations 0) =
      some (if iterations.val % 2 = 1 then buf1 else buf0) := by
  rw [iterationLoop_zero]
  obtain ⟨m, hm⟩ := Nat.exists_eq_succ_of_ne_zero hpos
  rw [hm, List.range_succ, List.map_append, List.map_singleton]
  unfold lastWritten
  rw [List.getLast?_concat]
  simp only
  rw [stepCommand_target kernel input buf0 buf1 mu global m hk]
  by_cases hpar : m % 2 = 0
  · have : m.succ % 2 = 1 := by omega
    simp [hpar, this]
  · have : ¬ m.succ % 2 = 1 := by omega
    simp [hpar, this]

/-! ## Parameters -/

open EulerGradientVectorFlow

/-- C1 (code defect): with one iteration step the only step writes the second
working buffer, yet each of the three drivers copies the seeded first buffer
to the output; the buffer materialized is not the buffer last written. The
first conjunct is the whole queue of `execute` on the 64 by 48 field after
`setIterations(1)`. -/
theorem C1_single_step_materializes_seed_buffer :
    (execute (New.setIterations 1).2 field64x48 deviceAll Runtime.empty).2.queue =
      [.enqueueNDRangeKernel .GVF2DCopy [.mem .inputVectorField, .mem .vectorField] [64, 48],
       .enqueueNDRangeKernel .GVF2DIteration
         [.mem .inputVectorField, .mem .vectorField, .mem .vectorField2,
          .scalar (.finite float_0_05)] [64, 48],
       .enqueueNDRangeKernel .GVF2DCopy [.mem .vectorField, .mem .outputCLImage] [64, 48]] ∧
    (lastWritten (execute2DGVF.steps New field64x48 1) = some .vectorField2 ∧
      (execute2DGVF.materialize New field64x48 deviceAll).source = some .vectorField) ∧
    (lastWritten (execute3DGVF.steps New volume8 1) = some .vectorField2 ∧
      (execute3DGVF.materialize New volume8 deviceAll).source = some .vectorField) ∧
    (lastWritten (execute3DGVFNo3DWrite.steps New volume8 1) = some .vectorFieldBuffer1 ∧
      (execute3DGVFNo3DWrite.materialize volume8).head?.bind Command.source =
        some .vectorFieldBuffer) := by
  have hqueue : (execute (New.setIterations 1).2 field64x48 deviceAll Runtime.empty).2.queue =
      execute2DGVF.seed (New.setIterations 1).2 field64x48 deviceAll ::
        (execute2DGVF.steps (New.setIterations 1).2 field64x48 1 ++
          [execute2DGVF.materialize (New.setIterations 1).2 field64x48 deviceAll]) := rfl
  rw [hqueue]
  unfold execute2DGVF.steps execute3DGVF.steps execute3DGVFNo3DWrite.steps
  simp only [iterationLoop_zero]
  refine ⟨rfl, ⟨rfl, rfl⟩, ⟨rfl, rfl⟩, ⟨rfl, rfl⟩⟩

/-- C2 (code defect): `setMuConstant(0)` returns normally and stores 0, although
0 lies outside the interval (0, 0.2]; `setMuConstant(0.25)` throws and leaves
the stored value alone. -/
theorem C2_zero_mu_is_accepted :
    ((New.setMuConstant (.finite 0)).1 = .returned ∧
      (New.setMuConstant (.finite 0)).2.getMuConstant = .finite 0) ∧
    ((New.setMuConstant (.finite float_0_25)).1.failed = true ∧
      (New.setMuConstant (.finite float_0_25)).2 = New) := by
  simp [setMuConstant, getMuConstant, CFloat.gtDouble, CFloat.ltDouble, double_0_2,
    float_0_25, Outcome.failed]
  norm_num

/-- C3 (as stated, refuted): the single-precision value of 0.2, the binary32
number nearest to one fifth, exceeds the double literal 0.2, the binary64
number nearest to one fifth; `setMuConstant` throws on it and keeps the old
value. -/
theorem C3_single_precision_0_2_is_rejected :
    (|float_0_2 - 1 / 5| ≤ 1 / 2 ^ 27 ∧ |double_0_2 - 1 / 5| ≤ 1 / 2 ^ 56) ∧
    double_0_2 < float_0_2 ∧
    (New.setMuConstant (.finite float_0_2)).1.failed = true ∧
    (New.setMuConstant (.finite float_0_2)).2 = New := by
  have hlt : double_0_2 < float_0_2 := by
    unfold double_0_2 float_0_2
    norm_num
  refine ⟨⟨?_, ?_⟩, hlt, ?_, ?_⟩
  · unfold float_0_2
    rw [abs_le]
    constructor <;> norm_num
  · unfold double_0_2
    rw [abs_le]
    constructor <;> norm_num
  · simp [setMuConstant, CFloat.gtDouble, hlt, Outcome.failed]
  · simp [setMuConstant, CFloat.gtDouble, hlt]

/-- C3 (amended): for every finite float `mu` with `0 < mu` whose exact value
does not exceed the double literal 0.2, `setMuConstant(mu)` returns normally
and `getMuConstant()` then returns exactly `mu`; on the single-precision value
of 0.2 it throws and leaves the object unchanged. -/
theorem C3_mu_up_to_double_literal_is_stored (self : EulerGradientVectorFlow) :
    (∀ mu : ℚ, 0 < mu → mu ≤ double_0_2 →
      (self.setMuConstant (.finite mu)).1 = .returned ∧
      (self.setMuConstant (.finite mu)).2.getMuConstant = .finite mu) ∧
    ((self.setMuConstant (.finite float_0_2)).1.failed = true ∧
      (self.setMuConstant (.finite float_0_2)).2 = self) := by
  constructor
  · intro mu hpos hle
    have h1 : ¬ double_0_2 < mu := not_lt.mpr hle
    have h2 : ¬ mu < 0 := not_lt.mpr hpos.le
    simp [setMuConstant, getMuConstant, CFloat.gtDouble, CFloat.ltDouble, h1, h2]
  · have hlt : double_0_2 < float_0_2 := by
      unfold double_0_2 float_0_2
      norm_num
    simp [setMuConstant, CFloat.gtDouble, hlt, Outcome.failed]

/-- Witness of C3 (amended) at the single-precision value of 0.0001. -/
theorem C3_mu_up_to_double_literal_is_stored_witness :
    (0 < float_0_0001 ∧ float_0_0001 ≤ double_0_2) ∧
    ((New.setMuConstant (.finite float_0_0001)).1 = .returned ∧
      (New.setMuConstant (.finite float_0_0001)).2.getMuConstant = .finite float_0_0001) :=
  ⟨⟨by unfold float_0_0001; norm_num, by unfold float_0_0001 double_0_2; norm_num⟩,
    (C3_mu_up_to_double_literal_is_stored New).1 float_0_0001
      (by unfold float_0_0001; norm_num) (by unfold float_0_0001 double_0_2; norm_num)⟩

/-- C4: `setIterations(n)` throws exactly when `n = 0`; when it throws the
object is unchanged, and when it returns the stored count is `n`. -/
theorem C4_setIterations_rejects_exactly_zero (self : EulerGradientVectorFlow) (n : uint) :
    ((self.setIterations n).1.failed = true ↔ n = 0) ∧
    ((self.setIterations n).1.failed = true → (self.setIterations n).2 = self) ∧
    ((self.setIterations n).1.failed = false → (self.setIterations n).2.mIterations = n) := by
  unfold setIterations
  by_cases h : n = 0
  · simp [h, Outcome.failed]
  · simp [h, Outcome.failed]

/-- Witness of C4: a rejected zero keeps an earlier explicit value (7) and
keeps the unset state; an accepted 5 is stored. -/
theorem C4_setIterations_rejects_exactly_zero_witness :
    (((New.setIterations 7).2.setIterations 0).1.failed = true ∧
      ((New.setIterations 7).2.setIterations 0).2 = (New.setIterations 7).2) ∧
    ((New.setIterations 0).1.failed = true ∧ (New.setIterations 0).2 = New) ∧
    ((New.setIterations 5).1.failed = false ∧ (New.setIterations 5).2.mIterations = 5) :=
  ⟨⟨by decide,
      (C4_setIterations_rejects_exactly_zero (New.setIterations 7).2 0).2.1 (by decide)⟩,
    ⟨by decide, (C4_setIterations_rejects_exactly_zero New 0).2.1 (by decide)⟩,
    ⟨by decide, (C4_setIterations_rejects_exactly_zero New 5).2.2 (by decide)⟩⟩

/-! ## The iteration count of a run -/

theorem lastAccepted_ne_zero (calls : List uint) (n : uint) (h : lastAccepted calls = some n) :
    n ≠ 0 := by
  unfold lastAccepted at h
  have hmem := List.mem_of_getLast?_eq_some h
  simpa using (List.mem_filter.mp hmem).2

theorem setIterationsCalls_mIterations (calls : List uint) :
    ∀ self : EulerGradientVectorFlow,
      (setIterationsCalls self calls).mIterations = (lastAccepted calls).getD self.mIterations := by
  induction calls with
  | nil => intro self; rfl
  | cons n rest ih =>
    intro self
    rw [setIterationsCalls, ih]
    by_cases hn : n = 0
    · subst hn
      simp [setIterations, lastAccepted]
    · have hne : (n != 0) = true := by simpa using hn
      simp only [setIterations, lastAccepted, List.filter_cons, hne, if_true]
      rw [List.getLast?_cons]
      simp [hn]

theorem execute_iterations_eq_resolvedCount (calls : List uint) (input : Image) :
    execute.iterations (setIterationsCalls New calls) input = resolvedCount calls input := by
  unfold execute.iterations resolvedCount
  rw [setIterationsCalls_mIterations]
  cases h : lastAccepted calls with
  | none => simp [New]
  | some n =>
    have hn := lastAccepted_ne_zero calls n h
    simp [hn]

theorem stepCommand_isIteration (kernel : Kernel) (input buf0 buf1 : MemObject) (mu : CFloat)
    (global : List Nat) (k : Nat)
    (hk : kernel = .GVF2DIteration ∨ kernel = .GVF3DIteration) :
    (stepCommand kernel input buf0 buf1 mu global k).isIteration = true := by
  unfold stepCommand
  rcases hk with rfl | rfl <;> split <;> rfl

theorem iterationLoop_filter_isIteration (kernel : Kernel) (input buf0 buf1 : MemObject)
    (mu : CFloat) (global : List Nat) (iterations : uint)
    (hk : kernel = .GVF2DIteration ∨ kernel = .GVF3DIteration) :
    (iterationLoop kernel input buf0 buf1 mu global iterations 0).filter Command.isIteration =
      iterationLoop kernel input buf0 buf1 mu global iterations 0 := by
  rw [List.filter_eq_self, iterationLoop_zero]
  intro c hc
  obtain ⟨k, _, rfl⟩ := List.mem_map.mp hc
  exact stepCommand_isIteration kernel input buf0 buf1 mu global k hk

theorem execute2DGVF_iterationSteps (self : EulerGradientVectorFlow) (input : Image)
    (device : OpenCLDevice) (iterations : uint) (rt before : Runtime)
    (hq : rt.queue = before.queue) :
    iterationSteps (execute2DGVF self input device iterations rt).2 before = iterations.val := by
  have hseed : (execute2DGVF.seed self input device).isIteration = false := by
    unfold execute2DGVF.seed
    dsimp only
    split <;> rfl
  have hmat : (execute2DGVF.materialize self input device).isIteration = false := by
    unfold execute2DGVF.materialize
    dsimp only
    split <;> rfl
  unfold iterationSteps Runtime.launchedSince execute2DGVF
  simp only [hq, List.drop_left, List.filter_cons, hseed, hmat, List.filter_append,
    List.filter_nil]
  unfold execute2DGVF.steps
  rw [iterationLoop_filter_isIteration _ _ _ _ _ _ _ (Or.inl rfl)]
  simp [iterationLoop_length]

theorem execute3DGVF_iterationSteps (self : EulerGradientVectorFlow) (input : Image)
    (device : OpenCLDevice) (iterations : uint) (rt before : Runtime)
    (hq : rt.queue = before.queue) :
    iterationSteps (execute3DGVF self input device iterations rt).2 before = iterations.val := by
  have hseed : (execute3DGVF.seed self input device).isIteration = false := by
    unfold execute3DGVF.seed
    dsimp only
    split <;> rfl
  have hmat : (execute3DGVF.materialize self input device).isIteration = false := by
    unfold execute3DGVF.materialize
    dsimp only
    split <;> rfl
  unfold iterationSteps Runtime.launchedSince execute3DGVF
  simp only [hq, List.drop_left, List.filter_cons, hseed, hmat, List.filter_append,
    List.filter_nil]
  unfold execute3DGVF.steps
  rw [iterationLoop_filter_isIteration _ _ _ _ _ _ _ (Or.inr rfl)]
  simp [iterationLoop_length]

theorem execute3DGVFNo3DWrite_iterationSteps (self : EulerGradientVectorFlow) (input : Image)
    (iterations : uint) (rt before : Runtime) (hq : rt.queue = before.queue) :
    iterationSteps (execute3DGVFNo3DWrite self input iterations rt).2 before =
      iterations.val := by
  unfold iterationSteps Runtime.launchedSince execute3DGVFNo3DWrite
  simp only [hq, List.drop_left, List.filter_cons, List.filter_append]
  unfold execute3DGVFNo3DWrite.steps
  rw [iterationLoop_filter_isIteration _ _ _ _ _ _ _ (Or.inr rfl)]
  simp [iterationLoop_length, execute3DGVFNo3DWrite.seed, execute3DGVFNo3DWrite.materialize,
    Command.isIteration]

theorem execute_iterationSteps (self : EulerGradientVectorFlow) (input : Image)
    (device : OpenCLDevice) (rt : Runtime) (hvalid : execute.invalid input = false) :
    iterationSteps (execute self input device rt).2 rt = (execute.iterations self input).val := by
  unfold execute
  simp only [hvalid, Bool.false_eq_true, if_false]
  split
  · exact execute2DGVF_iterationSteps self input device _ _ rt rfl
  · split
    · exact execute3DGVF_iterationSteps self input device _ _ rt rfl
    · exact execute3DGVFNo3DWrite_iterationSteps self input _ _ rt rfl

/-- C5: on a field that passes validation, after any sequence of
`setIterations` calls on a fresh object, `execute` launches as many iteration
steps as the resolved count: the argument of the last accepted call, or
`max(width, height, depth)` when there is none; the number is positive when
every extent is at least 1. -/
theorem C5_launched_steps_equal_resolved_count (calls : List uint) (input : Image)
    (device : OpenCLDevice) (rt : Runtime) (hvalid : execute.invalid input = false) :
    iterationSteps (execute (setIterationsCalls New calls) input device rt).2 rt =
      (resolvedCount calls input).val ∧
    (1 ≤ input.width.val ∧ 1 ≤ input.height.val ∧ 1 ≤ input.depth.val →
      0 < iterationSteps (execute (setIterationsCalls New calls) input device rt).2 rt) := by
  have hcount := execute_iterationSteps (setIterationsCalls New calls) input device rt hvalid
  rw [execute_iterations_eq_resolvedCount] at hcount
  refine ⟨hcount, ?_⟩
  rintro ⟨hw, _, _⟩
  rw [hcount]
  unfold resolvedCount
  cases h : lastAccepted calls with
  | none =>
    have hle : input.width ≤ max input.width (max input.height input.depth) := le_max_left _ _
    have hle2 : input.width.val ≤ (max input.width (max input.height input.depth)).val := hle
    simp only
    omega
  | some n =>
    have hn := lastAccepted_ne_zero calls n h
    have : n.val ≠ 0 := fun hc => hn (Fin.ext hc)
    simp only
    omega

/-- Witness of C5: a fresh object on the 64 by 48 planar field runs 64 steps;
after `setIterations(10)` followed by a rejected `setIterations(0)` it runs 10. -/
theorem C5_launched_steps_equal_resolved_count_witness :
    execute.invalid field64x48 = false ∧
    iterationSteps (execute New field64x48 deviceAll Runtime.empty).2 Runtime.empty = 64 ∧
    iterationSteps (execute (setIterationsCalls New [10, 0]) field64x48 deviceAll
      Runtime.empty).2 Runtime.empty = 10 ∧
    0 < iterationSteps (execute New field64x48 deviceAll Runtime.empty).2 Runtime.empty :=
  ⟨by decide,
    (C5_launched_steps_equal_resolved_count [] field64x48 deviceAll Runtime.empty
      (by decide)).1,
    (C5_launched_steps_equal_resolved_count [10, 0] field64x48 deviceAll Runtime.empty
      (by decide)).1,
    (C5_launched_steps_equal_resolved_count [] field64x48 deviceAll Runtime.empty
      (by decide)).2 ⟨by decide, by decide, by decide⟩⟩

/-! ## Validation in execute -/

theorem execute_outcome (self : EulerGradientVectorFlow) (input : Image)
    (device : OpenCLDevice) (rt : Runtime) :
    (execute self input device rt).1.failed = execute.invalid input := by
  unfold execute
  cases h : execute.invalid input with
  | true => rfl
  | false =>
    simp only [Bool.false_eq_true, if_false]
    split
    · rfl
    · split <;> rfl

/-- C6: for a field of dimensionality 2 or 3, `execute` throws exactly when
the number of components differs from the dimensionality. -/
theorem C6_execute_rejects_exactly_component_mismatch (self : EulerGradientVectorFlow)
    (input : Image) (device : OpenCLDevice) (rt : Runtime)
    (hdim : input.dimensions = 2 ∨ input.dimensions = 3) :
    (execute self input device rt).1.failed = true ↔
      input.nrOfComponents ≠ input.dimensions := by
  rw [execute_outcome]
  unfold execute.invalid
  rcases hdim with h | h <;> simp [h]

/-- Witness of C6: the 3-component planar image is rejected, the 2-component
planar field and the 3-component volume are accepted. -/
theorem C6_execute_rejects_exactly_component_mismatch_witness :
    (planarThreeComponents.dimensions = 2 ∨ planarThreeComponents.dimensions = 3) ∧
    ((execute New planarThreeComponents deviceAll Runtime.empty).1.failed = true ↔
      planarThreeComponents.nrOfComponents ≠ planarThreeComponents.dimensions) ∧
    (execute New planarThreeComponents deviceAll Runtime.empty).1.failed = true ∧
    ¬ (execute New field64x48 deviceAll Runtime.empty).1.failed = true ∧
    ¬ (execute New volume8 deviceNone Runtime.empty).1.failed = true :=
  ⟨Or.inl rfl,
    C6_execute_rejects_exactly_component_mismatch New planarThreeComponents deviceAll
      Runtime.empty (Or.inl rfl),
    (C6_execute_rejects_exactly_component_mismatch New planarThreeComponents deviceAll
      Runtime.empty (Or.inl rfl)).mpr (by decide),
    fun h => (C6_execute_rejects_exactly_component_mismatch New field64x48 deviceAll
      Runtime.empty (Or.inl rfl)).mp h rfl,
    fun h => (C6_execute_rejects_exactly_component_mismatch New volume8 deviceNone
      Runtime.empty (Or.inr rfl)).mp h rfl⟩

/-- C7: when `execute` throws, the state it leaves is the state it found: no
program built, no memory object allocated, no command enqueued, and the output
image neither created nor resized. -/
theorem C7_failed_execute_leaves_state_untouched (self : EulerGradientVectorFlow)
    (input : Image) (device : OpenCLDevice) (rt : Runtime)
    (hfail : (execute self input device rt).1.failed = true) :
    (execute self input device rt).2 = rt ∧
    (execute self input device rt).2.allocations = rt.allocations ∧
    (execute self input device rt).2.output = rt.output ∧
    (execute self input device rt).2.queue = rt.queue := by
  rw [execute_outcome] at hfail
  have h : (execute self input device rt).2 = rt := by
    unfold execute
    simp [hfail]
  rw [h]
  exact ⟨rfl, rfl, rfl, rfl⟩

/-- Witness of C7: the rejected 3-component planar image, on a state already
in use. -/
theorem C7_failed_execute_leaves_state_untouched_witness :
    (execute New planarThreeComponents deviceAll runtimeInUse).1.failed = true ∧
    (execute New planarThreeComponents deviceAll runtimeInUse).2 = runtimeInUse ∧
    (execute New planarThreeComponents deviceAll runtimeInUse).2.allocations =
      runtimeInUse.allocations ∧
    (execute New planarThreeComponents deviceAll runtimeInUse).2.output = runtimeInUse.output ∧
    (execute New planarThreeComponents deviceAll runtimeInUse).2.queue = runtimeInUse.queue :=
  ⟨rfl, C7_failed_execute_leaves_state_untouched New planarThreeComponents deviceAll
    runtimeInUse rfl⟩

/-! ## Storage format negotiation -/

/-- C8: when the device supports at least one candidate of the chain for the
dimensionality and precision preference, the storage format the drivers
compute is the first supported candidate of that chain. -/
theorem C8_negotiation_picks_first_supported (type : MemObjectType) (device : OpenCLDevice)
    (mUse16bitFormat : Bool)
    (hsome : ∃ f ∈ negotiationChain type mUse16bitFormat, device.supports type f = true) :
    (negotiationChain type mUse16bitFormat).find? (device.supports type) =
      some (storageFormat type device mUse16bitFormat) := by
  obtain ⟨f, hf, hsup⟩ := hsome
  cases type <;> cases mUse16bitFormat <;>
    simp only [negotiationChain, List.mem_cons, List.mem_singleton, List.not_mem_nil,
      or_false] at hf <;>
    simp only [negotiationChain, storageFormat, storageFormat2D, storageFormat3D,
      OpenCLDevice.supports, List.find?_cons, List.find?_nil, if_true, Bool.false_eq_true,
      if_false] <;>
    unfold OpenCLDevice.supports at hsup
  · rcases hf with rfl | rfl
    · simp only [hsup, if_true]
    · cases h1 : device.isImageFormatSupported .CL_RG .CL_FLOAT .CL_MEM_OBJECT_IMAGE2D <;>
        simp [hsup]
  · rcases hf with rfl | rfl | rfl | rfl
    · simp only [hsup, if_true]
    · cases h1 : device.isImageFormatSupported .CL_RG .CL_SNORM_INT16 .CL_MEM_OBJECT_IMAGE2D <;>
        simp [hsup]
    · cases h1 : device.isImageFormatSupported .CL_RG .CL_SNORM_INT16 .CL_MEM_OBJECT_IMAGE2D <;>
      cases h2 : device.isImageFormatSupported .CL_RGBA .CL_SNORM_INT16 .CL_MEM_OBJECT_IMAGE2D <;>
        simp [hsup]
    · cases h1 : device.isImageFormatSupported .CL_RG .CL_SNORM_INT16 .CL_MEM_OBJECT_IMAGE2D <;>
      cases h2 : device.isImageFormatSupported .CL_RGBA .CL_SNORM_INT16 .CL_MEM_OBJECT_IMAGE2D <;>
      cases h3 : device.isImageFormatSupported .CL_RG .CL_FLOAT .CL_MEM_OBJECT_IMAGE2D <;>
        simp [hsup]
  · subst hf
    simp [hsup]
  · rcases hf with rfl | rfl
    · simp only [hsup, if_true]
    · cases h1 : device.isImageFormatSupported .CL_RGBA .CL_SNORM_INT16 .CL_MEM_OBJECT_IMAGE3D <;>
        simp [hsup]

/-- Witness of C8: on a device that supports only the 4-channel float
formats, the planar 16-bit chain resolves to its fourth candidate. -/
theorem C8_negotiation_picks_first_supported_witness :
    (∃ f ∈ negotiationChain .CL_MEM_OBJECT_IMAGE2D true,
      deviceRGBAFloat.supports .CL_MEM_OBJECT_IMAGE2D f = true) ∧
    (negotiationChain .CL_MEM_OBJECT_IMAGE2D true).find?
        (deviceRGBAFloat.supports .CL_MEM_OBJECT_IMAGE2D) =
      some (storageFormat .CL_MEM_OBJECT_IMAGE2D deviceRGBAFloat true) ∧
    storageFormat .CL_MEM_OBJECT_IMAGE2D deviceRGBAFloat true = ⟨.CL_RGBA, .CL_FLOAT⟩ :=
  ⟨⟨⟨.CL_RGBA, .CL_FLOAT⟩, by decide, by decide⟩,
    C8_negotiation_picks_first_supported .CL_MEM_OBJECT_IMAGE2D deviceRGBAFloat true
      ⟨⟨.CL_RGBA, .CL_FLOAT⟩, by decide, by decide⟩,
    by decide⟩

/-- C9 (as stated, refuted): on a device that supports no candidate of any
chain, negotiation still yields the 4-channel float format, which the device
does not support, and the drivers allocate their buffers in it and return
normally. -/
theorem C9_unsupported_chain_still_yields_format :
    (∀ type prefer16bit, ∀ f ∈ negotiationChain type prefer16bit,
      deviceNone.supports type f = false) ∧
    (storageFormat .CL_MEM_OBJECT_IMAGE2D deviceNone true = ⟨.CL_RGBA, .CL_FLOAT⟩ ∧
      deviceNone.supports .CL_MEM_OBJECT_IMAGE2D
        (storageFormat .CL_MEM_OBJECT_IMAGE2D deviceNone true) = false) ∧
    (storageFormat .CL_MEM_OBJECT_IMAGE3D deviceNone true = ⟨.CL_RGBA, .CL_FLOAT⟩ ∧
      deviceNone.supports .CL_MEM_OBJECT_IMAGE3D
        (storageFormat .CL_MEM_OBJECT_IMAGE3D deviceNone true) = false) ∧
    ((execute2DGVF New field64x48 deviceNone 64 Runtime.empty).1 = .returned ∧
      (execute2DGVF New field64x48 deviceNone 64 Runtime.empty).2.allocations =
        [.image2D .vectorField .CL_MEM_READ_WRITE ⟨.CL_RGBA, .CL_FLOAT⟩ 64 48,
         .image2D .vectorField2 .CL_MEM_READ_WRITE ⟨.CL_RGBA, .CL_FLOAT⟩ 64 48]) ∧
    ((execute3DGVF New volume8 deviceNone 8 Runtime.empty).1 = .returned ∧
      (execute3DGVF New volume8 deviceNone 8 Runtime.empty).2.allocations =
        [.image3D .vectorField .CL_MEM_READ_WRITE ⟨.CL_RGBA, .CL_FLOAT⟩ 8 8 8,
         .image3D .vectorField2 .CL_MEM_READ_WRITE ⟨.CL_RGBA, .CL_FLOAT⟩ 8 8 8]) := by
  refine ⟨?_, ⟨rfl, rfl⟩, ⟨rfl, rfl⟩, ⟨rfl, rfl⟩, ⟨rfl, rfl⟩⟩
  intro type prefer16bit f _
  rfl

/-- C9 (amended): negotiation has no failure path. For every capability set
it yields a format: the 4-channel float format when no candidate of the chain
is supported, and a format the device reported as supported whenever the
result is anything other than the 4-channel float format. -/
theorem C9_negotiation_falls_back_to_rgba_float (type : MemObjectType)
    (device : OpenCLDevice) (mUse16bitFormat : Bool) :
    ((∀ f ∈ negotiationChain type mUse16bitFormat, device.supports type f = false) →
      storageFormat type device mUse16bitFormat = ⟨.CL_RGBA, .CL_FLOAT⟩) ∧
    (storageFormat type device mUse16bitFormat ≠ ⟨.CL_RGBA, .CL_FLOAT⟩ →
      device.supports type (storageFormat type device mUse16bitFormat) = true) := by
  cases type <;> cases mUse16bitFormat <;>
    simp only [negotiationChain, storageFormat, storageFormat2D, storageFormat3D,
      OpenCLDevice.supports, List.mem_cons, List.mem_singleton, List.not_mem_nil, or_false,
      forall_eq_or_imp, forall_eq, if_true, Bool.false_eq_true, if_false]
  · constructor
    · rintro ⟨h1, _⟩
      simp [h1]
    · cases h1 : device.isImageFormatSupported .CL_RG .CL_FLOAT .CL_MEM_OBJECT_IMAGE2D <;>
        simp [h1]
  · constructor
    · rintro ⟨h1, h2, h3, _⟩
      simp [h1, h2, h3]
    · cases h1 : device.isImageFormatSupported .CL_RG .CL_SNORM_INT16 .CL_MEM_OBJECT_IMAGE2D <;>
      cases h2 : device.isImageFormatSupported .CL_RGBA .CL_SNORM_INT16 .CL_MEM_OBJECT_IMAGE2D <;>
      cases h3 : device.isImageFormatSupported .CL_RG .CL_FLOAT .CL_MEM_OBJECT_IMAGE2D <;>
        simp [h1, h2, h3]
  · simp
  · constructor
    · rintro ⟨h1, _⟩
      simp [h1]
    · cases h1 : device.isImageFormatSupported .CL_RGBA .CL_SNORM_INT16 .CL_MEM_OBJECT_IMAGE3D <;>
        simp [h1]

/-- Witness of C9 (amended): the device without any supported format gets
the 4-channel float format; on the device that supports everything the planar
16-bit result differs from it and is supported. -/
theorem C9_negotiation_falls_back_to_rgba_float_witness :
    ((∀ f ∈ negotiationChain .CL_MEM_OBJECT_IMAGE2D true,
        deviceNone.supports .CL_MEM_OBJECT_IMAGE2D f = false) ∧
      storageFormat .CL_MEM_OBJECT_IMAGE2D deviceNone true = ⟨.CL_RGBA, .CL_FLOAT⟩) ∧
    (storageFormat .CL_MEM_OBJECT_IMAGE2D deviceAll true ≠ ⟨.CL_RGBA, .CL_FLOAT⟩ ∧
      deviceAll.supports .CL_MEM_OBJECT_IMAGE2D
        (storageFormat .CL_MEM_OBJECT_IMAGE2D deviceAll true) = true) :=
  ⟨⟨fun _ _ => rfl,
      (C9_negotiation_falls_back_to_rgba_float .CL_MEM_OBJECT_IMAGE2D deviceNone true).1
        (fun _ _ => rfl)⟩,
    ⟨by decide,
      (C9_negotiation_falls_back_to_rgba_float .CL_MEM_OBJECT_IMAGE2D deviceAll true).2
        (by decide)⟩⟩

/-! ## Seeding and materializing -/

theorem storageFormat2D_type (device : OpenCLDevice) (mUse16bitFormat : Bool) :
    (storageFormat2D device mUse16bitFormat).image_channel_data_type = .CL_SNORM_INT16 ∨
    (storageFormat2D device mUse16bitFormat).image_channel_data_type = .CL_FLOAT := by
  unfold storageFormat2D
  repeat' split
  all_goals simp

theorem storageFormat3D_type (device : OpenCLDevice) (mUse16bitFormat : Bool) :
    (storageFormat3D device mUse16bitFormat).image_channel_data_type = .CL_SNORM_INT16 ∨
    (storageFormat3D device mUse16bitFormat).image_channel_data_type = .CL_FLOAT := by
  unfold storageFormat3D
  repeat' split
  all_goals simp

/-- C10 (as stated, refuted): a 2-channel float field on a device whose only
float format has 4 channels, with the 32-bit preference, gets 4-channel float
storage, and the planar driver seeds and materializes with a raw image copy
although the channel counts differ; a 2-channel 8-bit field on a device that
supports everything gets 2-channel float storage and is raw-copied as well,
although the element precisions differ. -/
theorem C10_raw_copy_across_differing_formats :
    (field64x48.clFormat = ⟨.CL_RG, .CL_FLOAT⟩ ∧
      storageFormat2D deviceRGBAFloat New.set32bitStorageFormat.mUse16bitFormat =
        ⟨.CL_RGBA, .CL_FLOAT⟩ ∧
      field64x48.clFormat.image_channel_order.channels ≠
        (storageFormat2D deviceRGBAFloat
          New.set32bitStorageFormat.mUse16bitFormat).image_channel_order.channels ∧
      execute2DGVF.seed New.set32bitStorageFormat field64x48 deviceRGBAFloat =
        .enqueueCopyImage .inputVectorField .vectorField [64, 48, 1] ∧
      execute2DGVF.materialize New.set32bitStorageFormat field64x48 deviceRGBAFloat =
        .enqueueCopyImage .vectorField .outputCLImage [64, 48, 1]) ∧
    (execute.invalid field64x48UInt8 = false ∧
      field64x48UInt8.clFormat = ⟨.CL_RG, .CL_UNSIGNED_INT8⟩ ∧
      storageFormat2D deviceAll New.set32bitStorageFormat.mUse16bitFormat =
        ⟨.CL_RG, .CL_FLOAT⟩ ∧
      execute2DGVF.seed New.set32bitStorageFormat field64x48UInt8 deviceAll =
        .enqueueCopyImage .inputVectorField .vectorField [64, 48, 1] ∧
      execute2DGVF.materialize New.set32bitStorageFormat field64x48UInt8 deviceAll =
        .enqueueCopyImage .vectorField .outputCLImage [64, 48, 1]) := by
  refine ⟨⟨rfl, rfl, by decide, rfl, rfl⟩, ⟨rfl, rfl, rfl, rfl, rfl⟩⟩

/-- C10 (amended): in the planar and the volumetric direct-write driver,
seeding and materializing launch the conversion kernel exactly when the
negotiated storage element type is the 16-bit normalized one and use a raw
image copy exactly when it is 32-bit float; the native format of the field
and the channel count of the storage play no part. -/
theorem C10_copy_kind_follows_storage_precision (self : EulerGradientVectorFlow)
    (input : Image) (device : OpenCLDevice) :
    (((execute2DGVF.seed self input device).isConversionKernel = true ↔
        (storageFormat2D device self.mUse16bitFormat).image_channel_data_type =
          .CL_SNORM_INT16) ∧
      ((execute2DGVF.seed self input device).isRawCopy = true ↔
        (storageFormat2D device self.mUse16bitFormat).image_channel_data_type = .CL_FLOAT) ∧
      ((execute2DGVF.materialize self input device).isConversionKernel = true ↔
        (storageFormat2D device self.mUse16bitFormat).image_channel_data_type =
          .CL_SNORM_INT16) ∧
      ((execute2DGVF.materialize self input device).isRawCopy = true ↔
        (storageFormat2D device self.mUse16bitFormat).image_channel_data_type = .CL_FLOAT)) ∧
    (((execute3DGVF.seed self input device).isConversionKernel = true ↔
        (storageFormat3D device self.mUse16bitFormat).image_channel_data_type =
          .CL_SNORM_INT16) ∧
      ((execute3DGVF.seed self input device).isRawCopy = true ↔
        (storageFormat3D device self.mUse16bitFormat).image_channel_data_type = .CL_FLOAT) ∧
      ((execute3DGVF.materialize self input device).isConversionKernel = true ↔
        (storageFormat3D device self.mUse16bitFormat).image_channel_data_type =
          .CL_SNORM_INT16) ∧
      ((execute3DGVF.materialize self input device).isRawCopy = true ↔
        (storageFormat3D device self.mUse16bitFormat).image_channel_data_type = .CL_FLOAT)) := by
  unfold execute2DGVF.seed execute2DGVF.materialize execute3DGVF.seed execute3DGVF.materialize
  constructor
  · rcases storageFormat2D_type device self.mUse16bitFormat with h | h <;>
      simp [h, Command.isConversionKernel, Command.isRawCopy]
  · rcases storageFormat3D_type device self.mUse16bitFormat with h | h <;>
      simp [h, Command.isConversionKernel, Command.isRawCopy]

/-! ## Working buffers -/

/-- C11 (code defect): with the 16-bit preference on a device without the
16-bit normalized 3D format, the negotiation of the linearized driver falls
back to 4-channel 32-bit float (the branch that reports that 32 bit is used
instead), yet the driver sizes its two buffers with 2-byte elements and builds
the program with the 16-bit option; the volumetric direct-write driver at the
same preference and device allocates its two buffers in 32-bit float. -/
theorem C11_linearized_buffers_follow_preference_not_format :
    New.mUse16bitFormat = true ∧
    storageFormat3D deviceNone New.mUse16bitFormat = ⟨.CL_RGBA, .CL_FLOAT⟩ ∧
    (storageFormat3D deviceNone New.mUse16bitFormat).image_channel_data_type.bytes = 4 ∧
    execute3DGVFNo3DWrite.vectorFieldSize New = 2 ∧
    execute3DGVFNo3DWrite.buildOptions New = "-DVECTORS_16BIT" ∧
    (execute New volume8 deviceNone Runtime.empty).2.programs = ["-DVECTORS_16BIT"] ∧
    (execute New volume8 deviceNone Runtime.empty).2.allocations =
      [.buffer .vectorFieldBuffer .CL_MEM_READ_WRITE 3072,
       .buffer .vectorFieldBuffer1 .CL_MEM_READ_WRITE 3072,
       .buffer .finalVectorFieldBuffer .CL_MEM_WRITE_ONLY 8192] ∧
    (execute3DGVF.allocations New volume8 deviceNone).map Allocation.format? =
      [some ⟨.CL_RGBA, .CL_FLOAT⟩, some ⟨.CL_RGBA, .CL_FLOAT⟩] := by
  refine ⟨rfl, rfl, rfl, rfl, rfl, rfl, rfl, rfl⟩

/-- What the three drivers allocate as working buffers: two objects of the
same size each; images in the negotiated storage format in the planar and the
volumetric direct-write driver; buffers of `3 * vectorFieldSize * totalSize`
bytes in the linearized driver, where the element size and the build option
are read off the 16-bit preference alone. -/
theorem working_buffers_as_allocated (self : EulerGradientVectorFlow) (input : Image)
    (device : OpenCLDevice) :
    ((execute2DGVF.allocations self input device).map Allocation.obj =
        [.vectorField, .vectorField2] ∧
      (execute2DGVF.allocations self input device).map Allocation.shape =
        [[input.width.val, input.height.val], [input.width.val, input.height.val]] ∧
      (execute2DGVF.allocations self input device).map Allocation.format? =
        [some (storageFormat2D device self.mUse16bitFormat),
         some (storageFormat2D device self.mUse16bitFormat)]) ∧
    ((execute3DGVF.allocations self input device).map Allocation.obj =
        [.vectorField, .vectorField2] ∧
      (execute3DGVF.allocations self input device).map Allocation.shape =
        [[input.width.val, input.height.val, input.depth.val],
         [input.width.val, input.height.val, input.depth.val]] ∧
      (execute3DGVF.allocations self input device).map Allocation.format? =
        [some (storageFormat3D device self.mUse16bitFormat),
         some (storageFormat3D device self.mUse16bitFormat)]) ∧
    ((execute3DGVFNo3DWrite.allocations self input).map Allocation.obj =
        [.vectorFieldBuffer, .vectorFieldBuffer1] ∧
      (execute3DGVFNo3DWrite.allocations self input).map Allocation.shape =
        [[3 * execute3DGVFNo3DWrite.vectorFieldSize self *
            (input.width * input.height * input.depth).val % 4294967296],
         [3 * execute3DGVFNo3DWrite.vectorFieldSize self *
            (input.width * input.height * input.depth).val % 4294967296]] ∧
      (execute3DGVFNo3DWrite.vectorFieldSize self = 2 ↔ self.mUse16bitFormat = true) ∧
      (execute3DGVFNo3DWrite.vectorFieldSize self = 4 ↔ self.mUse16bitFormat = false) ∧
      (execute3DGVFNo3DWrite.buildOptions self = "-DVECTORS_16BIT" ↔
        self.mUse16bitFormat = true)) := by
  refine ⟨⟨rfl, rfl, rfl⟩, ⟨rfl, rfl, rfl⟩, ⟨rfl, rfl, ?_, ?_, ?_⟩⟩
  · unfold execute3DGVFNo3DWrite.vectorFieldSize
    cases self.mUse16bitFormat <;> simp
  · unfold execute3DGVFNo3DWrite.vectorFieldSize
    cases self.mUse16bitFormat <;> simp
  · unfold execute3DGVFNo3DWrite.buildOptions
    cases self.mUse16bitFormat <;> simp

/-! ## The double buffer -/

theorem stepCommand_source (kernel : Kernel) (input buf0 buf1 : MemObject) (mu : CFloat)
    (global : List Nat) (k : Nat)
    (hk : kernel = .GVF2DIteration ∨ kernel = .GVF3DIteration) :
    (stepCommand kernel input buf0 buf1 mu global k).source =
      some (if k % 2 = 0 then buf0 else buf1) := by
  unfold stepCommand
  rcases hk with rfl | rfl <;> split <;> rfl

theorem stepCommand_fieldArg (kernel : Kernel) (input buf0 buf1 : MemObject) (mu : CFloat)
    (global : List Nat) (k : Nat)
    (hk : kernel = .GVF2DIteration ∨ kernel = .GVF3DIteration) :
    (stepCommand kernel input buf0 buf1 mu global k).fieldArg = some input := by
  unfold stepCommand
  rcases hk with rfl | rfl <;> split <;> rfl

theorem iterationLoop_getElem (kernel : Kernel) (input buf0 buf1 : MemObject) (mu : CFloat)
    (global : List Nat) (iterations : uint) (i : Nat) (hi : i < iterations.val) :
    (iterationLoop kernel input buf0 buf1 mu global iterations 0)[i]? =
      some (stepCommand kernel input buf0 buf1 mu global i) := by
  rw [iterationLoop_zero, List.getElem?_map, List.getElem?_range hi]
  rfl

theorem iterationLoop_pingpong (kernel : Kernel) (input buf0 buf1 : MemObject) (mu : CFloat)
    (global : List Nat) (iterations : uint)
    (hk : kernel = .GVF2DIteration ∨ kernel = .GVF3DIteration) (hne : buf0 ≠ buf1)
    (i : Nat) (hi : i < iterations.val) :
    ∃ c r w, (iterationLoop kernel input buf0 buf1 mu global iterations 0)[i]? = some c ∧
      c.fieldArg = some input ∧ c.source = some r ∧ c.target = some w ∧ r ≠ w ∧
      (i = 0 → r = buf0) ∧
      (i + 1 < iterations.val →
        (iterationLoop kernel input buf0 buf1 mu global iterations 0)[i + 1]?.bind
          Command.source = some w) := by
  refine ⟨stepCommand kernel input buf0 buf1 mu global i, if i % 2 = 0 then buf0 else buf1,
    if i % 2 = 0 then buf1 else buf0, iterationLoop_getElem _ _ _ _ _ _ _ i hi,
    stepCommand_fieldArg _ _ _ _ _ _ _ hk, stepCommand_source _ _ _ _ _ _ _ hk,
    stepCommand_target _ _ _ _ _ _ _ hk, ?_, ?_, ?_⟩
  · by_cases hpar : i % 2 = 0
    · simpa [hpar] using hne
    · simpa [hpar] using hne.symm
  · intro h0
    simp [h0]
  · intro hnext
    rw [iterationLoop_getElem _ _ _ _ _ _ _ (i + 1) hnext]
    simp only [Option.some_bind]
    rw [stepCommand_source _ _ _ _ _ _ _ hk]
    by_cases hpar : i % 2 = 0
    · have : ¬ (i + 1) % 2 = 0 := by omega
      simp [hpar, this]
    · have : (i + 1) % 2 = 0 := by omega
      simp [hpar, this]

theorem launchedSince_execute2DGVF (self : EulerGradientVectorFlow) (input : Image)
    (device : OpenCLDevice) (iterations : uint) (rt before : Runtime)
    (hq : rt.queue = before.queue) :
    (execute2DGVF self input device iterations rt).2.launchedSince before =
      execute2DGVF.seed self input device ::
        (execute2DGVF.steps self input iterations ++
          [execute2DGVF.materialize self input device]) := by
  unfold Runtime.launchedSince execute2DGVF
  simp only [hq, List.drop_left]

theorem launchedSince_execute3DGVF (self : EulerGradientVectorFlow) (input : Image)
    (device : OpenCLDevice) (iterations : uint) (rt before : Runtime)
    (hq : rt.queue = before.queue) :
    (execute3DGVF self input device iterations rt).2.launchedSince before =
      execute3DGVF.seed self input device ::
        (execute3DGVF.steps self input iterations ++
          [execute3DGVF.materialize self input device]) := by
  unfold Runtime.launchedSince execute3DGVF
  simp only [hq, List.drop_left]

theorem launchedSince_execute3DGVFNo3DWrite (self : EulerGradientVectorFlow) (input : Image)
    (iterations : uint) (rt before : Runtime) (hq : rt.queue = before.queue) :
    (execute3DGVFNo3DWrite self input iterations rt).2.launchedSince before =
      execute3DGVFNo3DWrite.seed input ::
        (execute3DGVFNo3DWrite.steps self input iterations ++
          execute3DGVFNo3DWrite.materialize input) := by
  unfold Runtime.launchedSince execute3DGVFNo3DWrite
  simp only [hq, List.drop_left]

theorem launchedSince_self (rt : Runtime) : rt.launchedSince rt = [] := by
  unfold Runtime.launchedSince
  simp

theorem iterationLoop_target_ne (kernel : Kernel) (input buf0 buf1 : MemObject) (mu : CFloat)
    (global : List Nat) (iterations : uint) (x : MemObject)
    (hk : kernel = .GVF2DIteration ∨ kernel = .GVF3DIteration)
    (h0 : buf0 ≠ x) (h1 : buf1 ≠ x) :
    ∀ c ∈ iterationLoop kernel input buf0 buf1 mu global iterations 0, c.target ≠ some x := by
  intro c hc
  rw [iterationLoop_zero] at hc
  obtain ⟨k, _, rfl⟩ := List.mem_map.mp hc
  rw [stepCommand_target _ _ _ _ _ _ _ hk]
  split
  · simpa using h1
  · simpa using h0

theorem execute_never_writes_input (self : EulerGradientVectorFlow) (input : Image)
    (device : OpenCLDevice) (rt : Runtime) :
    ∀ c ∈ (execute self input device rt).2.launchedSince rt,
      c.target ≠ some .inputVectorField := by
  intro c hc
  unfold execute at hc
  split at hc
  · rw [launchedSince_self] at hc
    cases hc
  · simp only at hc
    split at hc
    · rw [launchedSince_execute2DGVF self input device _ { rt with output := some input } rt
        rfl] at hc
      simp only [List.mem_cons, List.mem_append, List.mem_singleton, List.not_mem_nil,
        or_false] at hc
      rcases hc with rfl | hc | rfl
      · unfold execute2DGVF.seed
        dsimp only
        split <;> simp [Command.target]
      · exact iterationLoop_target_ne _ _ _ _ _ _ _ _ (Or.inl rfl) (by decide) (by decide) c hc
      · unfold execute2DGVF.materialize
        dsimp only
        split <;> simp [Command.target]
    · split at hc
      · rw [launchedSince_execute3DGVF self input device _ { rt with output := some input } rt
          rfl] at hc
        simp only [List.mem_cons, List.mem_append, List.mem_singleton, List.not_mem_nil,
          or_false] at hc
        rcases hc with rfl | hc | rfl
        · unfold execute3DGVF.seed
          dsimp only
          split <;> simp [Command.target]
        · exact iterationLoop_target_ne _ _ _ _ _ _ _ _ (Or.inr rfl) (by decide) (by decide)
            c hc
        · unfold execute3DGVF.materialize
          dsimp only
          split <;> simp [Command.target]
      · rw [launchedSince_execute3DGVFNo3DWrite self input _ { rt with output := some input } rt
          rfl] at hc
        simp only [List.mem_cons, List.mem_append, execute3DGVFNo3DWrite.materialize,
          List.not_mem_nil, or_false] at hc
        rcases hc with rfl | hc | rfl | rfl
        · simp [execute3DGVFNo3DWrite.seed, Command.target]
        · exact iterationLoop_target_ne _ _ _ _ _ _ _ _ (Or.inr rfl) (by decide) (by decide)
            c hc
        · simp [Command.target]
        · simp [Command.target]

theorem execute2DGVF_seed_target (self : EulerGradientVectorFlow) (input : Image)
    (device : OpenCLDevice) :
    (execute2DGVF.seed self input device).target = some .vectorField := by
  unfold execute2DGVF.seed
  dsimp only
  split <;> rfl

theorem execute3DGVF_seed_target (self : EulerGradientVectorFlow) (input : Image)
    (device : OpenCLDevice) :
    (execute3DGVF.seed self input device).target = some .vectorField := by
  unfold execute3DGVF.seed
  dsimp only
  split <;> rfl

/-- C12: in each driver, for every count `n` and every step `i < n`, the step
binds the input field as argument 0, reads one working buffer and writes the
other one; step 0 reads the buffer the seeding wrote, and step `i + 1` reads
the buffer step `i` wrote. No command of `execute` has the input field as its
write target. -/
theorem C12_steps_alternate_buffers (self : EulerGradientVectorFlow) (input : Image)
    (device : OpenCLDevice) (rt : Runtime) (n : uint) (i : Nat) (hi : i < n.val) :
    (∃ c r w, (execute2DGVF.steps self input n)[i]? = some c ∧
      c.fieldArg = some .inputVectorField ∧ c.source = some r ∧ c.target = some w ∧ r ≠ w ∧
      (i = 0 → some r = (execute2DGVF.seed self input device).target) ∧
      (i + 1 < n.val →
        (execute2DGVF.steps self input n)[i + 1]?.bind Command.source = some w)) ∧
    (∃ c r w, (execute3DGVF.steps self input n)[i]? = some c ∧
      c.fieldArg = some .inputVectorField ∧ c.source = some r ∧ c.target = some w ∧ r ≠ w ∧
      (i = 0 → some r = (execute3DGVF.seed self input device).target) ∧
      (i + 1 < n.val →
        (execute3DGVF.steps self input n)[i + 1]?.bind Command.source = some w)) ∧
    (∃ c r w, (execute3DGVFNo3DWrite.steps self input n)[i]? = some c ∧
      c.fieldArg = some .inputVectorField ∧ c.source = some r ∧ c.target = some w ∧ r ≠ w ∧
      (i = 0 → some r = (execute3DGVFNo3DWrite.seed input).target) ∧
      (i + 1 < n.val →
        (execute3DGVFNo3DWrite.steps self input n)[i + 1]?.bind Command.source = some w)) ∧
    (∀ c ∈ (execute self input device rt).2.launchedSince rt,
      c.target ≠ some .inputVectorField) := by
  refine ⟨?_, ?_, ?_, execute_never_writes_input self input device rt⟩
  · obtain ⟨c, r, w, h1, h2, h3, h4, h5, h6, h7⟩ :=
      iterationLoop_pingpong .GVF2DIteration .inputVectorField .vectorField .vectorField2
        self.mMu [input.width.val, input.height.val] n (Or.inl rfl) (by decide) i hi
    refine ⟨c, r, w, h1, h2, h3, h4, h5, ?_, h7⟩
    intro h0
    rw [execute2DGVF_seed_target, h6 h0]
  · obtain ⟨c, r, w, h1, h2, h3, h4, h5, h6, h7⟩ :=
      iterationLoop_pingpong .GVF3DIteration .inputVectorField .vectorField .vectorField2
        self.mMu [input.width.val, input.height.val, input.depth.val] n (Or.inr rfl)
        (by decide) i hi
    refine ⟨c, r, w, h1, h2, h3, h4, h5, ?_, h7⟩
    intro h0
    rw [execute3DGVF_seed_target, h6 h0]
  · obtain ⟨c, r, w, h1, h2, h3, h4, h5, h6, h7⟩ :=
      iterationLoop_pingpong .GVF3DIteration .inputVectorField .vectorFieldBuffer
        .vectorFieldBuffer1 self.mMu [input.width.val, input.height.val, input.depth.val] n
        (Or.inr rfl) (by decide) i hi
    refine ⟨c, r, w, h1, h2, h3, h4, h5, ?_, h7⟩
    intro h0
    rw [h6 h0]
    rfl

/-- Witness of C12: step 1 of 3 on the 64 by 48 field and on the 8 by 8 by 8
volume. -/
theorem C12_steps_alternate_buffers_witness :
    1 < (3 : uint).val ∧
    (∃ c r w, (execute2DGVF.steps New field64x48 3)[1]? = some c ∧
      c.fieldArg = some .inputVectorField ∧ c.source = some r ∧ c.target = some w ∧ r ≠ w ∧
      (1 = 0 → some r = (execute2DGVF.seed New field64x48 deviceAll).target) ∧
      (1 + 1 < (3 : uint).val →
        (execute2DGVF.steps New field64x48 3)[1 + 1]?.bind Command.source = some w)) ∧
    (∀ c ∈ (execute New field64x48 deviceAll Runtime.empty).2.launchedSince Runtime.empty,
      c.target ≠ some .inputVectorField) :=
  ⟨by decide,
    (C12_steps_alternate_buffers New field64x48 deviceAll Runtime.empty 3 1 (by decide)).1,
    (C12_steps_alternate_buffers New field64x48 deviceAll Runtime.empty 3 1
      (by decide)).2.2.2⟩

/-! ## Driver selection -/

theorem execute2DGVF_ne_execute3DGVF (self : EulerGradientVectorFlow) (input : Image)
    (device : OpenCLDevice) (n : uint) (rt : Runtime) :
    execute2DGVF self input device n rt ≠ execute3DGVF self input device n rt := by
  intro h
  have h2 := congrArg (fun p => p.2.allocations) h
  simp [execute2DGVF, execute3DGVF, execute2DGVF.allocations, execute3DGVF.allocations] at h2

theorem execute2DGVF_ne_execute3DGVFNo3DWrite (self : EulerGradientVectorFlow)
    (input : Image) (device : OpenCLDevice) (n : uint) (rt : Runtime) :
    execute2DGVF self input device n rt ≠ execute3DGVFNo3DWrite self input n rt := by
  intro h
  have h2 := congrArg (fun p => p.2.allocations) h
  simp [execute2DGVF, execute3DGVFNo3DWrite, execute2DGVF.allocations,
    execute3DGVFNo3DWrite.allocations] at h2

theorem execute3DGVF_ne_execute3DGVFNo3DWrite (self : EulerGradientVectorFlow)
    (input : Image) (device : OpenCLDevice) (n : uint) (rt : Runtime) :
    execute3DGVF self input device n rt ≠ execute3DGVFNo3DWrite self input n rt := by
  intro h
  have h2 := congrArg (fun p => p.2.allocations) h
  simp [execute3DGVF, execute3DGVFNo3DWrite, execute3DGVF.allocations,
    execute3DGVFNo3DWrite.allocations] at h2

/-- C13: on a field that passes validation, `execute` runs exactly one driver:
the planar driver on every 2D field whatever the device, the volumetric
direct-write driver on a 3D field when the device can write to 3D textures,
and the linearized driver on a 3D field exactly when it cannot. The three
drivers leave pairwise different states, so the run identifies its driver. -/
theorem C13_execute_selects_one_driver (self : EulerGradientVectorFlow) (input : Image)
    (device : OpenCLDevice) (rt : Runtime) (hvalid : execute.invalid input = false) :
    (input.dimensions = 2 →
      execute self input device rt =
        execute2DGVF self input device (execute.iterations self input)
          { rt with output := some input }) ∧
    (input.dimensions = 3 → device.isWritingTo3DTexturesSupported = true →
      execute self input device rt =
        execute3DGVF self input device (execute.iterations self input)
          { rt with output := some input }) ∧
    (input.dimensions = 3 →
      (execute self input device rt =
          execute3DGVFNo3DWrite self input (execute.iterations self input)
            { rt with output := some input } ↔
        device.isWritingTo3DTexturesSupported = false)) ∧
    (∀ (n : uint) (rt0 : Runtime),
      execute2DGVF self input device n rt0 ≠ execute3DGVF self input device n rt0 ∧
      execute2DGVF self input device n rt0 ≠ execute3DGVFNo3DWrite self input n rt0 ∧
      execute3DGVF self input device n rt0 ≠ execute3DGVFNo3DWrite self input n rt0) := by
  refine ⟨?_, ?_, ?_, fun n rt0 => ⟨execute2DGVF_ne_execute3DGVF self input device n rt0,
    execute2DGVF_ne_execute3DGVFNo3DWrite self input device n rt0,
    execute3DGVF_ne_execute3DGVFNo3DWrite self input device n rt0⟩⟩
  · intro hdim
    unfold execute
    simp [hvalid, hdim]
  · intro hdim hsup
    unfold execute
    simp [hvalid, hdim, hsup]
  · intro hdim
    unfold execute
    cases hsup : device.isWritingTo3DTexturesSupported
    · simp [hvalid, hdim, hsup]
    · have hne := execute3DGVF_ne_execute3DGVFNo3DWrite self input device
        (execute.iterations self input) { rt with output := some input }
      simp [hvalid, hdim, hne]

/-- Witness of C13: the planar field on the device without any capability,
the volume on the device that writes to 3D textures, and the volume on the
device that does not. -/
theorem C13_execute_selects_one_driver_witness :
    (execute.invalid field64x48 = false ∧ field64x48.dimensions = 2 ∧
      execute New field64x48 deviceNone Runtime.empty =
        execute2DGVF New field64x48 deviceNone (execute.iterations New field64x48)
          { Runtime.empty with output := some field64x48 }) ∧
    (execute.invalid volume8 = false ∧ volume8.dimensions = 3 ∧
      deviceAll.isWritingTo3DTexturesSupported = true ∧
      execute New volume8 deviceAll Runtime.empty =
        execute3DGVF New volume8 deviceAll (execute.iterations New volume8)
          { Runtime.empty with output := some volume8 }) ∧
    (deviceNo3DWrite.isWritingTo3DTexturesSupported = false ∧
      execute New volume8 deviceNo3DWrite Runtime.empty =
        execute3DGVFNo3DWrite New volume8 (execute.iterations New volume8)
          { Runtime.empty with output := some volume8 }) :=
  ⟨⟨rfl, rfl,
      (C13_execute_selects_one_driver New field64x48 deviceNone Runtime.empty rfl).1 rfl⟩,
    ⟨rfl, rfl, rfl,
      (C13_execute_selects_one_driver New volume8 deviceAll Runtime.empty rfl).2.1 rfl rfl⟩,
    ⟨rfl,
      ((C13_execute_selects_one_driver New volume8 deviceNo3DWrite Runtime.empty
        rfl).2.2.1 rfl).mpr rfl⟩⟩

/-! ## What the drivers compute -/

theorem run_stepCommand {β : Type} (f : β → β → CFloat → β) (g : Command → β → β)
    (kernel : Kernel) (input buf0 buf1 : MemObject) (mu : CFloat) (global : List Nat)
    (k : Nat) (hk : kernel = .GVF2DIteration ∨ kernel = .GVF3DIteration) (m : Memory β) :
    (stepCommand kernel input buf0 buf1 mu global k).run f g m =
      if k % 2 = 0 then Function.update m buf1 (f (m buf0) (m input) mu)
      else Function.update m buf0 (f (m buf1) (m input) mu) := by
  unfold stepCommand
  rcases hk with rfl | rfl <;> split <;> rfl

theorem runQueue_append {β : Type} (f : β → β → CFloat → β) (g : Command → β → β)
    (q1 q2 : List Command) (m : Memory β) :
    runQueue f g (q1 ++ q2) m = runQueue f g q2 (runQueue f g q1 m) := by
  unfold runQueue
  rw [List.foldl_append]

theorem runQueue_cons {β : Type} (f : β → β → CFloat → β) (g : Command → β → β)
    (c : Command) (q : List Command) (m : Memory β) :
    runQueue f g (c :: q) m = runQueue f g q (c.run f g m) := rfl

theorem runQueue_nil {β : Type} (f : β → β → CFloat → β) (g : Command → β → β)
    (m : Memory β) : runQueue f g [] m = m := rfl

theorem runQueue_steps {β : Type} (f : β → β → CFloat → β) (g : Command → β → β)
    (kernel : Kernel) (input buf0 buf1 : MemObject) (mu : CFloat) (global : List Nat)
    (hk : kernel = .GVF2DIteration ∨ kernel = .GVF3DIteration)
    (h01 : buf0 ≠ buf1) (hi0 : input ≠ buf0) (hi1 : input ≠ buf1) (m : Memory β) (k : Nat) :
    runQueue f g ((List.range k).map (stepCommand kernel input buf0 buf1 mu global)) m input =
        m input ∧
    runQueue f g ((List.range k).map (stepCommand kernel input buf0 buf1 mu global)) m buf0 =
        (fun b => f b (m input) mu)^[2 * (k / 2)] (m buf0) ∧
    (k % 2 = 1 →
      runQueue f g ((List.range k).map (stepCommand kernel input buf0 buf1 mu global)) m buf1 =
        (fun b => f b (m input) mu)^[k] (m buf0)) := by
  induction k with
  | zero => exact ⟨rfl, rfl, fun h => absurd h (by decide)⟩
  | succ k ih =>
    obtain ⟨ihin, ih0, ih1⟩ := ih
    rw [List.range_succ, List.map_append, List.map_singleton, runQueue_append]
    generalize runQueue f g ((List.range k).map (stepCommand kernel input buf0 buf1 mu global))
      m = mk at ihin ih0 ih1
    rw [runQueue_cons, run_stepCommand f g kernel input buf0 buf1 mu global k hk]
    show (runQueue f g [] _) input = _ ∧ (runQueue f g [] _) buf0 = _ ∧
      (_ → (runQueue f g [] _) buf1 = _)
    unfold runQueue
    simp only [List.foldl_nil]
    by_cases hpar : k % 2 = 0
    · have hhalf : 2 * ((k + 1) / 2) = 2 * (k / 2) := by omega
      have hk2 : 2 * (k / 2) = k := by omega
      simp only [hpar, if_true]
      refine ⟨?_, ?_, ?_⟩
      · rw [Function.update_noteq hi1, ihin]
      · rw [Function.update_noteq h01, ih0, hhalf]
      · intro _
        rw [Function.update_same, ih0, ihin, hk2, Function.iterate_succ_apply']
    · have hodd : k % 2 = 1 := by omega
      have hhalf : 2 * ((k + 1) / 2) = k + 1 := by omega
      simp only [hpar, if_false]
      refine ⟨?_, ?_, ?_⟩
      · rw [Function.update_noteq hi0, ihin]
      · rw [Function.update_same, ih1 hodd, ihin, hhalf, Function.iterate_succ_apply']
      · intro h
        omega

theorem run_seed2D {β : Type} (f : β → β → CFloat → β) (g : Command → β → β)
    (self : EulerGradientVectorFlow) (input : Image) (device : OpenCLDevice) (m : Memory β) :
    (execute2DGVF.seed self input device).run f g m =
      Function.update m .vectorField
        (g (execute2DGVF.seed self input device) (m .inputVectorField)) := by
  unfold execute2DGVF.seed
  dsimp only
  split <;> rfl

theorem run_materialize2D {β : Type} (f : β → β → CFloat → β) (g : Command → β → β)
    (self : EulerGradientVectorFlow) (input : Image) (device : OpenCLDevice) (m : Memory β) :
    (execute2DGVF.materialize self input device).run f g m =
      Function.update m .outputCLImage
        (g (execute2DGVF.materialize self input device) (m .vectorField)) := by
  unfold execute2DGVF.materialize
  dsimp only
  split <;> rfl

theorem run_seed3D {β : Type} (f : β → β → CFloat → β) (g : Command → β → β)
    (self : EulerGradientVectorFlow) (input : Image) (device : OpenCLDevice) (m : Memory β) :
    (execute3DGVF.seed self input device).run f g m =
      Function.update m .vectorField
        (g (execute3DGVF.seed self input device) (m .inputVectorField)) := by
  unfold execute3DGVF.seed
  dsimp only
  split <;> rfl

theorem run_materialize3D {β : Type} (f : β → β → CFloat → β) (g : Command → β → β)
    (self : EulerGradientVectorFlow) (input : Image) (device : OpenCLDevice) (m : Memory β) :
    (execute3DGVF.materialize self input device).run f g m =
      Function.update m .outputCLImage
        (g (execute3DGVF.materialize self input device) (m .vectorField)) := by
  unfold execute3DGVF.materialize
  dsimp only
  split <;> rfl

theorem execute2DGVF_outputAfter {β : Type} (f : β → β → CFloat → β) (g : Command → β → β)
    (self : EulerGradientVectorFlow) (input : Image) (device : OpenCLDevice) (n : uint)
    (rt : Runtime) (m : Memory β) :
    outputAfter f g (execute2DGVF self input device n rt) rt m =
      g (execute2DGVF.materialize self input device)
        ((fun b => f b (m .inputVectorField) self.mMu)^[2 * (n.val / 2)]
          (g (execute2DGVF.seed self input device) (m .inputVectorField))) := by
  unfold outputAfter
  rw [launchedSince_execute2DGVF self input device n rt rt rfl, runQueue_cons,
    runQueue_append, run_seed2D]
  unfold execute2DGVF.steps
  rw [iterationLoop_zero]
  obtain ⟨_, h0, _⟩ := runQueue_steps f g .GVF2DIteration .inputVectorField .vectorField
    .vectorField2 self.mMu [input.width.val, input.height.val] (Or.inl rfl) (by decide)
    (by decide) (by decide)
    (Function.update m .vectorField
      (g (execute2DGVF.seed self input device) (m .inputVectorField))) n.val
  rw [runQueue_cons, run_materialize2D, runQueue_nil]
  rw [Function.update_same, h0, Function.update_same,
    Function.update_noteq (by decide : MemObject.inputVectorField ≠ MemObject.vectorField)]

theorem execute3DGVF_outputAfter {β : Type} (f : β → β → CFloat → β) (g : Command → β → β)
    (self : EulerGradientVectorFlow) (input : Image) (device : OpenCLDevice) (n : uint)
    (rt : Runtime) (m : Memory β) :
    outputAfter f g (execute3DGVF self input device n rt) rt m =
      g (execute3DGVF.materialize self input device)
        ((fun b => f b (m .inputVectorField) self.mMu)^[2 * (n.val / 2)]
          (g (execute3DGVF.seed self input device) (m .inputVectorField))) := by
  unfold outputAfter
  rw [launchedSince_execute3DGVF self input device n rt rt rfl, runQueue_cons,
    runQueue_append, run_seed3D]
  unfold execute3DGVF.steps
  rw [iterationLoop_zero]
  obtain ⟨_, h0, _⟩ := runQueue_steps f g .GVF3DIteration .inputVectorField .vectorField
    .vectorField2 self.mMu [input.width.val, input.height.val, input.depth.val] (Or.inr rfl)
    (by decide) (by decide) (by decide)
    (Function.update m .vectorField
      (g (execute3DGVF.seed self input device) (m .inputVectorField))) n.val
  rw [runQueue_cons, run_materialize3D, runQueue_nil]
  rw [Function.update_same, h0, Function.update_same,
    Function.update_noteq (by decide : MemObject.inputVectorField ≠ MemObject.vectorField)]

theorem execute3DGVFNo3DWrite_outputAfter {β : Type} (f : β → β → CFloat → β)
    (g : Command → β → β) (self : EulerGradientVectorFlow) (input : Image) (n : uint)
    (rt : Runtime) (m : Memory β) :
    outputAfter f g (execute3DGVFNo3DWrite self input n rt) rt m =
      g (.enqueueCopyBufferToImage .finalVectorFieldBuffer .outputCLImage
          [input.width.val, input.height.val, input.depth.val])
        (g (.enqueueNDRangeKernel .GVF3DFinish
            [.mem .vectorFieldBuffer, .mem .finalVectorFieldBuffer]
            [input.width.val, input.height.val, input.depth.val])
          ((fun b => f b (m .inputVectorField) self.mMu)^[2 * (n.val / 2)]
            (g (execute3DGVFNo3DWrite.seed input) (m .inputVectorField)))) := by
  unfold outputAfter
  rw [launchedSince_execute3DGVFNo3DWrite self input n rt rt rfl, runQueue_cons,
    runQueue_append]
  unfold execute3DGVFNo3DWrite.steps
  rw [iterationLoop_zero]
  have hseed : (execute3DGVFNo3DWrite.seed input).run f g m =
      Function.update m .vectorFieldBuffer
        (g (execute3DGVFNo3DWrite.seed input) (m .inputVectorField)) := rfl
  rw [hseed]
  obtain ⟨_, h0, _⟩ := runQueue_steps f g .GVF3DIteration .inputVectorField
    .vectorFieldBuffer .vectorFieldBuffer1 self.mMu
    [input.width.val, input.height.val, input.depth.val] (Or.inr rfl)
    (by decide) (by decide) (by decide)
    (Function.update m .vectorFieldBuffer
      (g (execute3DGVFNo3DWrite.seed input) (m .inputVectorField))) n.val
  generalize runQueue f g ((List.range n.val).map (stepCommand .GVF3DIteration
    .inputVectorField .vectorFieldBuffer .vectorFieldBuffer1 self.mMu
    [input.width.val, input.height.val, input.depth.val]))
    (Function.update m .vectorFieldBuffer
      (g (execute3DGVFNo3DWrite.seed input) (m .inputVectorField))) = m2 at h0
  have hfinish : runQueue f g (execute3DGVFNo3DWrite.materialize input) m2 =
      Function.update
        (Function.update m2 .finalVectorFieldBuffer
          (g (.enqueueNDRangeKernel .GVF3DFinish
              [.mem .vectorFieldBuffer, .mem .finalVectorFieldBuffer]
              [input.width.val, input.height.val, input.depth.val])
            (m2 .vectorFieldBuffer)))
        .outputCLImage
        (g (.enqueueCopyBufferToImage .finalVectorFieldBuffer .outputCLImage
            [input.width.val, input.height.val, input.depth.val])
          (Function.update m2 .finalVectorFieldBuffer
            (g (.enqueueNDRangeKernel .GVF3DFinish
                [.mem .vectorFieldBuffer, .mem .finalVectorFieldBuffer]
                [input.width.val, input.height.val, input.depth.val])
              (m2 .vectorFieldBuffer)) .finalVectorFieldBuffer)) := rfl
  rw [hfinish, Function.update_same, Function.update_same, h0, Function.update_same,
    Function.update_noteq
      (by decide : MemObject.inputVectorField ≠ MemObject.vectorFieldBuffer)]

/-- C14: with an iteration step taken as an arbitrary function `f` of the read
buffer, the input field and `mu` (and every other pass as an arbitrary
function `g` of its source), the output of each driver after `n` steps is the
materialization of `f` applied `2 * (n / 2)` times to the seed. Hence the
output for an odd count `n + 1` equals the output for the even count `n`, and
for the count 1 the output is the materialized seed, with no step applied. -/
theorem C14_output_applies_step_even_times {β : Type} (f : β → β → CFloat → β)
    (g : Command → β → β) (self : EulerGradientVectorFlow) (input : Image)
    (device : OpenCLDevice) (rt : Runtime) (m : Memory β) (n : uint) :
    (outputAfter f g (execute2DGVF self input device n rt) rt m =
        g (execute2DGVF.materialize self input device)
          ((fun b => f b (m .inputVectorField) self.mMu)^[2 * (n.val / 2)]
            (g (execute2DGVF.seed self input device) (m .inputVectorField))) ∧
      outputAfter f g (execute3DGVF self input device n rt) rt m =
        g (execute3DGVF.materialize self input device)
          ((fun b => f b (m .inputVectorField) self.mMu)^[2 * (n.val / 2)]
            (g (execute3DGVF.seed self input device) (m .inputVectorField))) ∧
      outputAfter f g (execute3DGVFNo3DWrite self input n rt) rt m =
        g (.enqueueCopyBufferToImage .finalVectorFieldBuffer .outputCLImage
            [input.width.val, input.height.val, input.depth.val])
          (g (.enqueueNDRangeKernel .GVF3DFinish
              [.mem .vectorFieldBuffer, .mem .finalVectorFieldBuffer]
              [input.width.val, input.height.val, input.depth.val])
            ((fun b => f b (m .inputVectorField) self.mMu)^[2 * (n.val / 2)]
              (g (execute3DGVFNo3DWrite.seed input) (m .inputVectorField))))) ∧
    (∀ k : uint, n.val % 2 = 0 → k.val = n.val + 1 →
      outputAfter f g (execute2DGVF self input device k rt) rt m =
        outputAfter f g (execute2DGVF self input device n rt) rt m ∧
      outputAfter f g (execute3DGVF self input device k rt) rt m =
        outputAfter f g (execute3DGVF self input device n rt) rt m ∧
      outputAfter f g (execute3DGVFNo3DWrite self input k rt) rt m =
        outputAfter f g (execute3DGVFNo3DWrite self input n rt) rt m) ∧
    (outputAfter f g (execute2DGVF self input device 1 rt) rt m =
        g (execute2DGVF.materialize self input device)
          (g (execute2DGVF.seed self input device) (m .inputVectorField)) ∧
      outputAfter f g (execute3DGVF self input device 1 rt) rt m =
        g (execute3DGVF.materialize self input device)
          (g (execute3DGVF.seed self input device) (m .inputVectorField)) ∧
      outputAfter f g (execute3DGVFNo3DWrite self input 1 rt) rt m =
        g (.enqueueCopyBufferToImage .finalVectorFieldBuffer .outputCLImage
            [input.width.val, input.height.val, input.depth.val])
          (g (.enqueueNDRangeKernel .GVF3DFinish
              [.mem .vectorFieldBuffer, .mem .finalVectorFieldBuffer]
              [input.width.val, input.height.val, input.depth.val])
            (g (execute3DGVFNo3DWrite.seed input) (m .inputVectorField)))) := by
  refine ⟨⟨execute2DGVF_outputAfter f g self input device n rt m,
    execute3DGVF_outputAfter f g self input device n rt m,
    execute3DGVFNo3DWrite_outputAfter f g self input n rt m⟩, ?_, ?_⟩
  · intro k heven hk
    have hhalf : 2 * (k.val / 2) = 2 * (n.val / 2) := by omega
    rw [execute2DGVF_outputAfter, execute2DGVF_outputAfter, execute3DGVF_outputAfter,
      execute3DGVF_outputAfter, execute3DGVFNo3DWrite_outputAfter,
      execute3DGVFNo3DWrite_outputAfter, hhalf]
    exact ⟨rfl, rfl, rfl⟩
  · rw [execute2DGVF_outputAfter, execute3DGVF_outputAfter,
      execute3DGVFNo3DWrite_outputAfter]
    exact ⟨rfl, rfl, rfl⟩

/-- Witness of C14: with contents that count the steps applied (`f` adds one,
`g` keeps the value), the planar driver on the 64 by 48 field returns 2 after 2
steps and again 2 after 3 steps. -/
theorem C14_output_applies_step_even_times_witness :
    ((2 : uint).val % 2 = 0 ∧ (3 : uint).val = (2 : uint).val + 1) ∧
    outputAfter (fun b _ _ => b + 1) (fun _ b => b)
        (execute2DGVF New field64x48 deviceAll 3 Runtime.empty) Runtime.empty
        (fun _ => (0 : Nat)) =
      outputAfter (fun b _ _ => b + 1) (fun _ b => b)
        (execute2DGVF New field64x48 deviceAll 2 Runtime.empty) Runtime.empty
        (fun _ => (0 : Nat)) ∧
    outputAfter (fun b _ _ => b + 1) (fun _ b => b)
        (execute2DGVF New field64x48 deviceAll 2 Runtime.empty) Runtime.empty
        (fun _ => (0 : Nat)) = 2 :=
  ⟨⟨by decide, by decide⟩,
    ((C14_output_applies_step_even_times (fun b _ _ => b + 1) (fun _ b => b) New field64x48
      deviceAll Runtime.empty (fun _ => (0 : Nat)) 2).2.1 3 (by decide) (by decide)).1,
    (C14_output_applies_step_even_times (fun b _ _ => b + 1) (fun _ b => b) New field64x48
      deviceAll Runtime.empty (fun _ => (0 : Nat)) 2).1.1⟩

/-! ## UltrasoundVesselDetection: the suppression loop -/

theorem CFloat.lt_eq_false_of_le (x y : CFloat) (h : x.le y = true) : y.lt x = false := by
  cases x <;> cases y <;> simp_all [CFloat.le, CFloat.lt]

theorem CFloat.le_of_lt_eq_false (x y : CFloat) (hx : x.isNaN = false) (hy : y.isNaN = false)
    (h : x.lt y = false) : y.le x = true := by
  cases x <;> cases y <;> simp_all [CFloat.le, CFloat.lt, CFloat.isNaN]

theorem CFloat.le_of_lt_eq_true (x y : CFloat) (h : x.lt y = true) : x.le y = true := by
  cases x <;> cases y <;> simp_all [CFloat.le, CFloat.lt]
  exact h.le

theorem CFloat.le_chain (x y z : CFloat) (hxy : x.le y = true) (hyz : y.le z = true) :
    x.le z = true := by
  cases x <;> cases y <;> cases z <;> simp_all [CFloat.le]
  exact hxy.trans hyz

theorem CFloat.le_self (x : CFloat) (hx : x.isNaN = false) : x.le x = true := by
  cases x <;> simp_all [CFloat.le, CFloat.isNaN]

theorem CFloat.isNaN_of_gtDouble (x : CFloat) (d : ℚ) (h : x.gtDouble d = true) :
    x.isNaN = false := by
  cases x <;> simp_all [CFloat.gtDouble, CFloat.isNaN]

theorem candidates_example :
    UltrasoundVesselDetection.execute.candidates [candidateB, candidateC, candidateA] =
      [candidateB, candidateC, candidateA] := by
  norm_num [UltrasoundVesselDetection.execute.candidates, candidateA, candidateB, candidateC,
    CFloat.gtDouble, double_0_5]

theorem suppression_example :
    UltrasoundVesselDetection.execute.findBestEllipses
        (PriorityQueue.top CandidateComparison) gridDistance
        [candidateB, candidateC, candidateA] =
      some { mCrossSections := [candidateA.crossSection, candidateC.crossSection],
             decisions := [(candidateA, true), (candidateB, false), (candidateC, true)] } := by
  unfold UltrasoundVesselDetection.execute.findBestEllipses
  rw [candidates_example]
  norm_num [UltrasoundVesselDetection.execute.suppress, PriorityQueue.top, PriorityQueue.pop,
    UltrasoundVesselDetection.execute.invalid, CandidateComparison, CFloat.lt, gridDistance,
    candidateA, candidateB, candidateC, List.erase_cons]

theorem PriorityQueue.top_eq_none {α : Type} (comp : α → α → Bool) (q : List α)
    (h : PriorityQueue.top comp q = none) : q = [] := by
  cases q with
  | nil => rfl
  | cons a rest =>
    unfold PriorityQueue.top at h
    split at h
    · cases h
    · split at h <;> cases h

theorem PriorityQueue.top_mem {α : Type} (comp : α → α → Bool) :
    ∀ (q : List α) (t : α), PriorityQueue.top comp q = some t → t ∈ q := by
  intro q
  induction q with
  | nil =>
    intro t h
    cases h
  | cons a rest ih =>
    intro t h
    unfold PriorityQueue.top at h
    split at h
    · cases h
      exact List.mem_cons_self _ _
    · rename_i b hb
      split at h
      · have ht : b = t := Option.some.inj h
        rw [← ht]
        exact List.mem_cons_of_mem _ (ih b hb)
      · have ht : a = t := Option.some.inj h
        rw [← ht]
        exact List.mem_cons_self _ _

theorem Candidate.ordered_iff (c : Candidate) : c.ordered = true ↔ c.score.isNaN = false := by
  unfold Candidate.ordered
  cases c.score.isNaN <;> simp

theorem PriorityQueue.top_max :
    ∀ (q : List Candidate) (t : Candidate), (∀ x ∈ q, x.ordered = true) →
      PriorityQueue.top CandidateComparison q = some t →
      ∀ x ∈ q, x.score.le t.score = true := by
  intro q
  induction q with
  | nil =>
    intro t _ h
    cases h
  | cons a rest ih =>
    intro t hord h x hx
    have ha : a.score.isNaN = false :=
      (Candidate.ordered_iff a).mp (hord a (List.mem_cons_self _ _))
    have hrest : ∀ y ∈ rest, y.ordered = true := fun y hy =>
      hord y (List.mem_cons_of_mem _ hy)
    unfold PriorityQueue.top at h
    split at h
    · rename_i hnone
      have ht : a = t := Option.some.inj h
      have hnil := PriorityQueue.top_eq_none _ _ hnone
      subst hnil
      simp only [List.mem_singleton] at hx
      rw [hx, ← ht]
      exact CFloat.le_self _ ha
    · rename_i b hb
      have hmax := ih b hrest hb
      have hbmem := PriorityQueue.top_mem _ rest b hb
      have hbn : b.score.isNaN = false := (Candidate.ordered_iff b).mp (hrest b hbmem)
      split at h
      · rename_i hcomp
        have ht : b = t := Option.some.inj h
        rw [← ht]
        rcases List.mem_cons.mp hx with hxa | hx
        · rw [hxa]
          exact CFloat.le_of_lt_eq_true _ _ hcomp
        · exact hmax x hx
      · rename_i hcomp
        have ht : a = t := Option.some.inj h
        have hlt : a.score.lt b.score = false := by
          simpa [CandidateComparison] using hcomp
        have hle : b.score.le a.score = true := CFloat.le_of_lt_eq_false _ _ ha hbn hlt
        rw [← ht]
        rcases List.mem_cons.mp hx with hxa | hx
        · rw [hxa]
          exact CFloat.le_self _ ha
        · exact CFloat.le_chain _ _ _ (hmax x hx) hle

theorem PriorityQueue.top_conforms :
    PriorityQueue.Conforms CandidateComparison Candidate.ordered
      (PriorityQueue.top CandidateComparison) := by
  refine ⟨fun q h => PriorityQueue.top_eq_none _ q h, fun q t hord h => ⟨?_, ?_⟩⟩
  · exact PriorityQueue.top_mem _ q t h
  · intro x hx
    exact CFloat.lt_eq_false_of_le _ _ (PriorityQueue.top_max q t hord h x hx)

theorem conforms_max (top : List Candidate → Option Candidate)
    (hconf : PriorityQueue.Conforms CandidateComparison Candidate.ordered top)
    (q : List Candidate) (hord : ∀ x ∈ q, x.ordered = true)
    (t : Candidate) (h : top q = some t) : ∀ x ∈ q, x.score.le t.score = true := by
  intro x hx
  obtain ⟨htmem, hcomp⟩ := hconf.2 q t hord h
  have hfalse : t.score.lt x.score = false := hcomp x hx
  exact CFloat.le_of_lt_eq_false _ _ ((Candidate.ordered_iff t).mp (hord t htmem))
    ((Candidate.ordered_iff x).mp (hord x hx)) hfalse

theorem candidates_ordered (cells : List Candidate) :
    ∀ x ∈ UltrasoundVesselDetection.execute.candidates cells, x.ordered = true := by
  intro x hx
  unfold UltrasoundVesselDetection.execute.candidates at hx
  have h := (List.mem_filter.mp hx).2
  exact (Candidate.ordered_iff x).mpr (CFloat.isNaN_of_gtDouble _ _ h)

theorem PriorityQueue.pop_of_top {α : Type} [DecidableEq α] (top : List α → Option α)
    (q : List α) (t : α) (h : top q = some t) : PriorityQueue.pop top q = q.erase t := by
  unfold PriorityQueue.pop
  rw [h]

theorem invalid_eq_true_iff (distance : CFloat × CFloat → CFloat × CFloat → CFloat)
    (mCrossSections : List VesselCrossSection) (next : Candidate) :
    UltrasoundVesselDetection.execute.invalid distance mCrossSections next = true ↔
      ∃ c ∈ mCrossSections,
        (distance next.crossSection.imageCenterPosition c.imageCenterPosition).lt
          c.majorRadius = true := by
  unfold UltrasoundVesselDetection.execute.invalid
  simp [List.any_eq_true]

theorem decisions_snoc_split {α : Type} (old l1 l2 : List α) (x y : α)
    (h : old ++ [x] = l1 ++ y :: l2) :
    (l2 = [] ∧ old = l1 ∧ x = y) ∨ (∃ l2', l2 = l2' ++ [x] ∧ old = l1 ++ y :: l2') := by
  rcases List.eq_nil_or_concat l2 with hnil | ⟨L, b, hcat⟩
  · subst hnil
    have := List.append_inj' h rfl
    exact Or.inl ⟨rfl, this.1, by simpa using this.2⟩
  · rw [List.concat_eq_append] at hcat
    subst hcat
    have h2 : old ++ [x] = (l1 ++ y :: L) ++ [b] := by simpa using h
    have := List.append_inj' h2 rfl
    have hxb : x = b := by simpa using this.2
    subst hxb
    exact Or.inr ⟨L, rfl, this.1⟩

theorem mem_kept_iff (s : UltrasoundVesselDetection.Suppression) (k : Candidate) :
    k ∈ s.kept ↔ (k, true) ∈ s.decisions := by
  unfold UltrasoundVesselDetection.Suppression.kept
  simp only [List.mem_map, List.mem_filter]
  constructor
  · rintro ⟨⟨c, b⟩, ⟨hmem, hb⟩, rfl⟩
    simp only at hb
    subst hb
    exact hmem
  · intro h
    exact ⟨(k, true), ⟨h, rfl⟩, rfl⟩

theorem invariant_queue_ordered (distance : CFloat × CFloat → CFloat × CFloat → CFloat)
    (pushed q : List Candidate) (s : UltrasoundVesselDetection.Suppression)
    (hord : ∀ x ∈ pushed, x.ordered = true)
    (hinv : SuppressionInvariant distance pushed q s) : ∀ x ∈ q, x.ordered = true := by
  intro x hx
  obtain ⟨_, _, _, _, _, h6⟩ := hinv
  exact hord x (h6.mem_iff.mp (List.mem_append_right _ hx))

theorem invariant_after_pop (top : List Candidate → Option Candidate)
    (hconf : PriorityQueue.Conforms CandidateComparison Candidate.ordered top)
    (distance : CFloat × CFloat → CFloat × CFloat → CFloat)
    (pushed q : List Candidate) (hord : ∀ x ∈ pushed, x.ordered = true)
    (s : UltrasoundVesselDetection.Suppression) (next : Candidate) (b : Bool)
    (hinv : SuppressionInvariant distance pushed q s) (htop : top q = some next) :
    (s.decisions ++ [(next, b)]).Pairwise (fun a b => b.1.score.le a.1.score = true) ∧
    (∀ x ∈ PriorityQueue.pop top q, ∀ d ∈ s.decisions ++ [(next, b)],
      x.score.le d.1.score = true) ∧
    ((s.decisions ++ [(next, b)]).map (fun d => d.1) ++ PriorityQueue.pop top q).Perm
      pushed := by
  have hq := invariant_queue_ordered distance pushed q s hord hinv
  obtain ⟨_, _, h3, h4, _, h6⟩ := hinv
  have hmem := (hconf.2 q next hq htop).1
  have hmax := conforms_max top hconf q hq next htop
  rw [PriorityQueue.pop_of_top _ q next htop]
  refine ⟨?_, ?_, ?_⟩
  · rw [List.pairwise_append]
    refine ⟨h3, List.pairwise_singleton _ _, ?_⟩
    intro d hd e he
    simp only [List.mem_singleton] at he
    subst he
    exact h4 next hmem d hd
  · intro x hx d hd
    rcases List.mem_append.mp hd with hd | hd
    · exact h4 x (List.mem_of_mem_erase hx) d hd
    · simp only [List.mem_singleton] at hd
      subst hd
      exact hmax x (List.mem_of_mem_erase hx)
  · have hperm : (next :: q.erase next).Perm q := (List.perm_cons_erase hmem).symm
    have h : ((s.decisions ++ [(next, b)]).map (fun d => d.1) ++ q.erase next) =
        s.decisions.map (fun d => d.1) ++ (next :: q.erase next) := by simp
    rw [h]
    exact (List.Perm.append_left _ hperm).trans h6

theorem invariant_drop (top : List Candidate → Option Candidate)
    (hconf : PriorityQueue.Conforms CandidateComparison Candidate.ordered top)
    (distance : CFloat × CFloat → CFloat × CFloat → CFloat)
    (pushed q : List Candidate) (hord : ∀ x ∈ pushed, x.ordered = true)
    (s : UltrasoundVesselDetection.Suppression) (next : Candidate)
    (hinv : SuppressionInvariant distance pushed q s) (htop : top q = some next)
    (hinvalid : UltrasoundVesselDetection.execute.invalid distance s.mCrossSections next =
      true) :
    SuppressionInvariant distance pushed (PriorityQueue.pop top q)
      { s with decisions := s.decisions ++ [(next, false)] } := by
  obtain ⟨h3', h4', h6'⟩ := invariant_after_pop top hconf distance pushed q hord s next false
    hinv htop
  obtain ⟨h1, h2, _, _, h5, _⟩ := hinv
  refine ⟨?_, h2, h3', h4', ?_, h6'⟩
  · rw [h1]
    simp [UltrasoundVesselDetection.Suppression.kept, List.filter_append]
  · intro l1 d l2 hsplit
    rcases decisions_snoc_split s.decisions l1 l2 (next, false) (d, false) hsplit with
      ⟨_, hold, hd⟩ | ⟨l2', _, hold⟩
    · have hnd : next = d := congrArg Prod.fst hd
      subst hnd
      obtain ⟨c, hc, hlt⟩ := (invalid_eq_true_iff distance s.mCrossSections next).mp hinvalid
      rw [h1] at hc
      obtain ⟨k, hk, rfl⟩ := List.mem_map.mp hc
      refine ⟨k, ?_, hlt⟩
      rw [← hold]
      exact (mem_kept_iff s k).mp hk
    · exact h5 l1 d l2' hold

theorem invariant_keep (top : List Candidate → Option Candidate)
    (hconf : PriorityQueue.Conforms CandidateComparison Candidate.ordered top)
    (distance : CFloat × CFloat → CFloat × CFloat → CFloat)
    (pushed q : List Candidate) (hord : ∀ x ∈ pushed, x.ordered = true)
    (s : UltrasoundVesselDetection.Suppression) (next : Candidate)
    (hinv : SuppressionInvariant distance pushed q s) (htop : top q = some next)
    (hvalid : ¬ UltrasoundVesselDetection.execute.invalid distance s.mCrossSections next =
      true) :
    SuppressionInvariant distance pushed (PriorityQueue.pop top q)
      { mCrossSections := s.mCrossSections ++ [next.crossSection],
        decisions := s.decisions ++ [(next, true)] } := by
  obtain ⟨h3', h4', h6'⟩ := invariant_after_pop top hconf distance pushed q hord s next true
    hinv htop
  obtain ⟨h1, h2, _, _, h5, _⟩ := hinv
  refine ⟨?_, ?_, h3', h4', ?_, h6'⟩
  · show s.mCrossSections ++ [next.crossSection] = _
    rw [h1]
    simp [UltrasoundVesselDetection.Suppression.kept, List.filter_append]
  · show (s.mCrossSections ++ [next.crossSection]).Pairwise _
    rw [List.pairwise_append]
    refine ⟨h2, List.pairwise_singleton _ _, ?_⟩
    intro a ha e he
    simp only [List.mem_singleton] at he
    subst he
    by_contra hlt
    exact hvalid ((invalid_eq_true_iff distance s.mCrossSections next).mpr
      ⟨a, ha, by simpa using hlt⟩)
  · intro l1 d l2 hsplit
    rcases decisions_snoc_split s.decisions l1 l2 (next, true) (d, false) hsplit with
      ⟨_, _, hd⟩ | ⟨l2', _, hold⟩
    · have hb : true = false := congrArg Prod.snd hd
      cases hb
    · exact h5 l1 d l2' hold

theorem suppress_terminates_with_invariant (top : List Candidate → Option Candidate)
    (hconf : PriorityQueue.Conforms CandidateComparison Candidate.ordered top)
    (distance : CFloat × CFloat → CFloat × CFloat → CFloat) (pushed : List Candidate)
    (hord : ∀ x ∈ pushed, x.ordered = true) :
    ∀ (fuel : Nat) (q : List Candidate) (s : UltrasoundVesselDetection.Suppression),
      q.length = fuel → SuppressionInvariant distance pushed q s →
      ∃ s', UltrasoundVesselDetection.execute.suppress top distance fuel q s = some s' ∧
        SuppressionInvariant distance pushed [] s' := by
  intro fuel
  induction fuel with
  | zero =>
    intro q s hlen hinv
    have hq : q = [] := List.length_eq_zero.mp hlen
    subst hq
    exact ⟨s, rfl, hinv⟩
  | succ fuel ih =>
    intro q s hlen hinv
    have hqord := invariant_queue_ordered distance pushed q s hord hinv
    unfold UltrasoundVesselDetection.execute.suppress
    split
    · rename_i hnone
      have hq := hconf.1 q hnone
      subst hq
      exact ⟨s, rfl, hinv⟩
    · rename_i next htop
      have hmem := (hconf.2 q next hqord htop).1
      have hpop : (PriorityQueue.pop top q).length = fuel := by
        rw [PriorityQueue.pop_of_top _ q next htop, List.length_erase_of_mem hmem, hlen]
        rfl
      split
      · rename_i hinvalid
        exact ih _ _ hpop
          (invariant_drop top hconf distance pushed q hord s next hinv htop hinvalid)
      · rename_i hvalid
        exact ih _ _ hpop
          (invariant_keep top hconf distance pushed q hord s next hinv htop hvalid)

theorem invariant_initially (distance : CFloat × CFloat → CFloat × CFloat → CFloat)
    (pushed : List Candidate) :
    SuppressionInvariant distance pushed pushed { mCrossSections := [], decisions := [] } := by
  refine ⟨rfl, List.Pairwise.nil, List.Pairwise.nil, ?_, ?_, ?_⟩
  · intro x _ d hd
    cases hd
  · intro l1 d l2 h
    cases l1 <;> cases h
  · exact List.Perm.refl _

theorem candidates_nan_example :
    UltrasoundVesselDetection.execute.candidates [candidateOrigin, candidateNaNRadius] =
      [candidateOrigin, candidateNaNRadius] := by
  norm_num [UltrasoundVesselDetection.execute.candidates, candidateOrigin,
    candidateNaNRadius, CFloat.gtDouble, double_0_5]

/-- C15 (as stated, refuted): of two candidates at the same position, the one
with the higher score having NaN as its major radius, the loop keeps both: the
test `distance < radius` is false against NaN. The second entry lies at
distance 0 from the first, and 0 is not at least NaN. -/
theorem C15_nan_radius_suppresses_nothing :
    PriorityQueue.Conforms CandidateComparison Candidate.ordered
      (PriorityQueue.top CandidateComparison) ∧
    UltrasoundVesselDetection.execute.findBestEllipses
        (PriorityQueue.top CandidateComparison) gridDistance
        [candidateOrigin, candidateNaNRadius] =
      some { mCrossSections := [candidateNaNRadius.crossSection, candidateOrigin.crossSection],
             decisions := [(candidateNaNRadius, true), (candidateOrigin, true)] } ∧
    gridDistance candidateOrigin.crossSection.imageCenterPosition
        candidateNaNRadius.crossSection.imageCenterPosition = .finite 0 ∧
    candidateNaNRadius.crossSection.majorRadius.le
      (gridDistance candidateOrigin.crossSection.imageCenterPosition
        candidateNaNRadius.crossSection.imageCenterPosition) = false := by
  refine ⟨PriorityQueue.top_conforms, ?_, ?_, ?_⟩
  · unfold UltrasoundVesselDetection.execute.findBestEllipses
    rw [candidates_nan_example]
    norm_num [UltrasoundVesselDetection.execute.suppress, PriorityQueue.top,
      PriorityQueue.pop, UltrasoundVesselDetection.execute.invalid, CandidateComparison,
      CFloat.lt, gridDistance, candidateOrigin, candidateNaNRadius, List.erase_cons]
  · norm_num [gridDistance, candidateOrigin, candidateNaNRadius]
  · rfl

/-- C15 (amended): for every list of scanned cells, of which those with a
score above 0.5 are pushed, and every priority queue that meets the contract of
the library, the suppression loop ends, and in the list it leaves in
`mCrossSections` (which `getCrossSections` returns) the test `distance <
major radius` of an earlier entry is false for the centre of every later
entry, so that the later centre lies at distance at least that radius whenever
neither the radius nor the distance is NaN; the entries are the cross sections
of the kept candidates, whose scores are in non-increasing order; every pushed
candidate is popped once, and every dropped candidate lies strictly within the
major radius of a kept candidate that was popped before it. -/
theorem C15_suppression_keeps_unsuppressed_candidates
    (top : List Candidate → Option Candidate)
    (hconf : PriorityQueue.Conforms CandidateComparison Candidate.ordered top)
    (distance : CFloat × CFloat → CFloat × CFloat → CFloat) (cells : List Candidate) :
    ∃ s, UltrasoundVesselDetection.execute.findBestEllipses top distance cells = some s ∧
      (∀ (i j : Nat) (hi : i < (UltrasoundVesselDetection.getCrossSections s).length)
          (hj : j < (UltrasoundVesselDetection.getCrossSections s).length), i < j →
        (distance
            ((UltrasoundVesselDetection.getCrossSections s).get ⟨j, hj⟩).imageCenterPosition
            ((UltrasoundVesselDetection.getCrossSections s).get ⟨i, hi⟩).imageCenterPosition).lt
          ((UltrasoundVesselDetection.getCrossSections s).get ⟨i, hi⟩).majorRadius = false ∧
        (((UltrasoundVesselDetection.getCrossSections s).get ⟨i, hi⟩).majorRadius.isNaN =
            false →
          (distance
            ((UltrasoundVesselDetection.getCrossSections s).get ⟨j, hj⟩).imageCenterPosition
            ((UltrasoundVesselDetection.getCrossSections s).get
              ⟨i, hi⟩).imageCenterPosition).isNaN = false →
          ((UltrasoundVesselDetection.getCrossSections s).get ⟨i, hi⟩).majorRadius.le
            (distance
              ((UltrasoundVesselDetection.getCrossSections s).get ⟨j, hj⟩).imageCenterPosition
              ((UltrasoundVesselDetection.getCrossSections s).get
                ⟨i, hi⟩).imageCenterPosition) = true)) ∧
      UltrasoundVesselDetection.getCrossSections s = s.kept.map (fun c => c.crossSection) ∧
      s.kept.Pairwise (fun a b => b.score.le a.score = true) ∧
      (s.decisions.map (fun d => d.1)).Perm
        (UltrasoundVesselDetection.execute.candidates cells) ∧
      (∀ l1 d l2, s.decisions = l1 ++ (d, false) :: l2 →
        ∃ k, (k, true) ∈ l1 ∧ k ∈ s.kept ∧
          (distance d.crossSection.imageCenterPosition
            k.crossSection.imageCenterPosition).lt k.crossSection.majorRadius = true) := by
  obtain ⟨s, hs, h1, h2, h3, _, h5, h6⟩ :=
    suppress_terminates_with_invariant top hconf distance
      (UltrasoundVesselDetection.execute.candidates cells) (candidates_ordered cells)
      (UltrasoundVesselDetection.execute.candidates cells).length
      (UltrasoundVesselDetection.execute.candidates cells)
      { mCrossSections := [], decisions := [] } rfl (invariant_initially distance _)
  refine ⟨s, hs, ?_, h1, ?_, ?_, ?_⟩
  · intro i j hi hj hij
    have h := List.pairwise_iff_getElem.mp h2 i j hi hj hij
    have hlt : (distance
        ((UltrasoundVesselDetection.getCrossSections s).get ⟨j, hj⟩).imageCenterPosition
        ((UltrasoundVesselDetection.getCrossSections s).get ⟨i, hi⟩).imageCenterPosition).lt
        ((UltrasoundVesselDetection.getCrossSections s).get ⟨i, hi⟩).majorRadius = false := by
      simpa [UltrasoundVesselDetection.getCrossSections] using h
    exact ⟨hlt, fun hr hd => CFloat.le_of_lt_eq_false _ _ hd hr hlt⟩
  · unfold UltrasoundVesselDetection.Suppression.kept
    exact List.Pairwise.map _ (fun a b hab => hab) (List.Pairwise.filter _ h3)
  · simpa using h6
  · intro l1 d l2 hsplit
    obtain ⟨k, hk, hlt⟩ := h5 l1 d l2 hsplit
    refine ⟨k, hk, ?_, hlt⟩
    rw [mem_kept_iff, hsplit]
    exact List.mem_append_left _ hk

/-- Witness of C15 (amended): of three candidates on a line, scanned in the
order B, C, A, the loop keeps A and C, which lie 10 apart with A of radius 5,
and drops B, which lies 3 from A. -/
theorem C15_suppression_keeps_unsuppressed_candidates_witness :
    PriorityQueue.Conforms CandidateComparison Candidate.ordered
      (PriorityQueue.top CandidateComparison) ∧
    ∃ s, UltrasoundVesselDetection.execute.findBestEllipses
        (PriorityQueue.top CandidateComparison) gridDistance
        [candidateB, candidateC, candidateA] = some s ∧
      UltrasoundVesselDetection.getCrossSections s =
        [candidateA.crossSection, candidateC.crossSection] ∧
      s.decisions = [(candidateA, true), (candidateB, false), (candidateC, true)] ∧
      candidateA.crossSection.majorRadius.le
        (gridDistance candidateC.crossSection.imageCenterPosition
          candidateA.crossSection.imageCenterPosition) = true ∧
      (∃ k, (k, true) ∈ [(candidateA, true)] ∧ k ∈ s.kept ∧
        (gridDistance candidateB.crossSection.imageCenterPosition
            k.crossSection.imageCenterPosition).lt k.crossSection.majorRadius = true) := by
  refine ⟨PriorityQueue.top_conforms, ?_⟩
  obtain ⟨s, hs, hsep, _, _, _, hdrop⟩ :=
    C15_suppression_keeps_unsuppressed_candidates (PriorityQueue.top CandidateComparison)
      PriorityQueue.top_conforms gridDistance [candidateB, candidateC, candidateA]
  have hval := suppression_example
  rw [hs] at hval
  have hs' := Option.some.inj hval
  subst hs'
  exact ⟨_, hs, rfl, rfl, (hsep 0 1 (by decide) (by decide) (by decide)).2 rfl rfl,
    hdrop [(candidateA, true)] candidateB [(candidateC, true)] rfl⟩

end fast
